import Mathlib

/-!
Verification of the DCF projection engine of the commercial real-estate
appraisal model (`dcf.ts`).  Numbers are modelled as exact rationals (`ℚ`),
JavaScript `Date` values as calendar dates, the `NaN` sentinel of the IRR
solver as `Option.none`, and the year-by-year mutable state of the cash-flow
loop as explicit state passing.  Input fields that the engine never reads
(presentation and narrative fields) are omitted from the input structures.
-/

namespace DCF

/-! ## Calendar dates (JS `Date` objects restricted to calendar days)

The engine parses `YYYY-MM-DD` strings into JS `Date`s and uses only
`getFullYear`/`getMonth`/`getDate`, `setFullYear`, `setDate(getDate()-1)`,
and comparisons.  A date is a year, a 0-indexed month (as `getMonth`), and a
1-indexed day of month; comparisons are lexicographic, which agrees with the
epoch-millisecond order JS uses for midnight-UTC dates. -/

structure SimpleDate where
  y : Int
  m : Nat
  d : Nat
deriving DecidableEq

def isLeap (y : Int) : Bool :=
  (y % 4 == 0 && y % 100 != 0) || (y % 400 == 0)

def daysInMonth (y : Int) (m : Nat) : Nat :=
  if m = 1 then (if isLeap y then 29 else 28)
  else if m = 3 ∨ m = 5 ∨ m = 8 ∨ m = 10 then 30
  else 31

/-- JS `date.setFullYear(y)`: the month/day are kept and the result is
renormalised (in practice only Feb 29 of a leap year rolls to Mar 1). -/
def setFullYear (dt : SimpleDate) (y : Int) : SimpleDate :=
  if dt.d ≤ daysInMonth y dt.m then { dt with y := y }
  else { y := y, m := (dt.m + 1) % 12, d := dt.d - daysInMonth y dt.m }

/-- JS `date.setDate(date.getDate() - 1)`: the previous calendar day. -/
def subOneDay (dt : SimpleDate) : SimpleDate :=
  if 1 < dt.d then { dt with d := dt.d - 1 }
  else if dt.m = 0 then { y := dt.y - 1, m := 11, d := 31 }
  else { dt with m := dt.m - 1, d := daysInMonth dt.y (dt.m - 1) }

def dateLe (a b : SimpleDate) : Prop :=
  a.y < b.y ∨ (a.y = b.y ∧ (a.m < b.m ∨ (a.m = b.m ∧ a.d ≤ b.d)))

def dateLt (a b : SimpleDate) : Prop :=
  a.y < b.y ∨ (a.y = b.y ∧ (a.m < b.m ∨ (a.m = b.m ∧ a.d < b.d)))

instance (a b : SimpleDate) : Decidable (dateLe a b) := by
  unfold dateLe; infer_instance

instance (a b : SimpleDate) : Decidable (dateLt a b) := by
  unfold dateLt; infer_instance

/-- A structurally valid parsed `YYYY-MM-DD` date (guaranteed by the
upstream form validation): month in range, day in range. -/
def validDate (dt : SimpleDate) : Prop :=
  dt.m ≤ 11 ∧ 1 ≤ dt.d ∧ dt.d ≤ 31 ∧ (dt.m = 1 → dt.d ≤ 29)

instance (dt : SimpleDate) : Decidable (validDate dt) := by
  unfold validDate; infer_instance

/-- Start of analysis year `i` (0-indexed), anchored at the effective date:
`new Date(eff); setFullYear(eff.getFullYear() + i)`. -/
def analysisYearStart (eff : SimpleDate) (i : Nat) : SimpleDate :=
  setFullYear eff (eff.y + i)

/-- End of analysis year `i`: one day before the start of year `i+1`. -/
def analysisYearEnd (eff : SimpleDate) (i : Nat) : SimpleDate :=
  subOneDay (setFullYear eff (eff.y + i + 1))

/-! ## Input data model (`types.ts`, fields read by `dcf.ts`) -/

inductive EscalationType where
  | fixedPercent | stepUp | cpi | blank
deriving DecidableEq

inductive ReimbursementType where
  | gross | nnn | modifiedGross | blank
deriving DecidableEq

inductive CapexAmountType where
  | fixed | percentPGI | percentEGI | perSF | blank
deriving DecidableEq

structure StepUpEscalationEntry where
  yearInLeaseTerm : Int
  rentPerSF : ℚ
deriving DecidableEq

structure ReimbursementStructureDetails where
  expenseStopAmountPerSF : Option ℚ
  adminFeeOnOpExPercent : Option ℚ
deriving DecidableEq

structure RentRollEntry where
  squareFeet : ℚ
  currentRentPerSF : ℚ
  leaseStartDate : SimpleDate
  leaseEndDate : SimpleDate
  escalationType : EscalationType
  escalationPercent : ℚ
  cpiEscalationRatePercent : Option ℚ
  cpiReviewFrequencyYears : Option Int
  stepUpSchedule : Option (List StepUpEscalationEntry)
  reimbursementType : ReimbursementType
  reimbursementDetails : Option ReimbursementStructureDetails
  renewalProbabilityPercent : ℚ
  renewRentBumpPercent : ℚ
  renewalDowntimeMonths : ℚ
  renewalMarketRentPerSF : ℚ
  renewalTiPerSF : ℚ
  renewalLcPercentOfFirstYearRent : ℚ
deriving DecidableEq

structure CapitalExpenditureEntry where
  year : Int
  amountType : CapexAmountType
  amount : ℚ
deriving DecidableEq

structure MarketLeasingAssumptions where
  marketRentNewLeasePerSF : ℚ
  timeToLeaseVacantSFMonths : ℚ
  newLeaseTiPerSF : ℚ
  newLeaseLcPercent : ℚ
deriving DecidableEq

structure ExpenseItem where
  amount : ℚ
  inflationRate : Option ℚ
  isRecoverable : Option Bool
deriving DecidableEq

structure OpexBuckets where
  taxes : ExpenseItem
  insurance : ExpenseItem
  repairsMaintenance : ExpenseItem
  managementPercentOfEGI : ExpenseItem
  reserves : ExpenseItem
deriving DecidableEq

structure OtherIncomeItem where
  amount : ℚ
  growthRate : Option ℚ
deriving DecidableEq

structure AppraisalInputs where
  effectiveDate : SimpleDate
  rentableSF : ℚ
  projectionYears : Int
  globalMarketRentGrowthPercent : ℚ
  globalExpenseInflationPercent : ℚ
  generalVacancyRatePercentForProjections : ℚ
  creditCollectionLossPercent : ℚ
  discountRatePercent : ℚ
  exitCapRate : ℚ
  saleCostPercent : ℚ
  operatingExpensesBuckets : OpexBuckets
  otherIncome : Option (List OtherIncomeItem)
  rentRoll : List RentRollEntry
  capitalExpenditures : List CapitalExpenditureEntry
  marketLeasingAssumptions : Option MarketLeasingAssumptions
deriving DecidableEq

/-! ## Output data model -/

structure AnnualCashFlowDCF where
  year : Int
  potentialBaseRent : ℚ
  scheduledEscalationsRevenue : ℚ
  potentialMarketRentFromVacancy : ℚ
  totalScheduledRentalRevenue : ℚ
  tenantReimbursementsNNN : ℚ
  potentialGrossRevenue : ℚ
  generalVacancyLoss : ℚ
  creditLoss : ℚ
  effectiveGrossIncome : ℚ
  operatingExpenses : ℚ
  netOperatingIncome : ℚ
  tenantImprovementsAndLcs : ℚ
  capitalExpenditures : ℚ
  netCashFlow : ℚ
  presentValueFactor : ℚ
  presentValueOfNetCashFlow : ℚ
  netCashFlowWithTerminal : ℚ
deriving DecidableEq

def zeroCF : AnnualCashFlowDCF :=
  { year := 0, potentialBaseRent := 0, scheduledEscalationsRevenue := 0,
    potentialMarketRentFromVacancy := 0, totalScheduledRentalRevenue := 0,
    tenantReimbursementsNNN := 0, potentialGrossRevenue := 0,
    generalVacancyLoss := 0, creditLoss := 0, effectiveGrossIncome := 0,
    operatingExpenses := 0, netOperatingIncome := 0,
    tenantImprovementsAndLcs := 0, capitalExpenditures := 0,
    netCashFlow := 0, presentValueFactor := 0,
    presentValueOfNetCashFlow := 0, netCashFlowWithTerminal := 0 }

structure DCFResults where
  projectedCashFlowsDCF : List AnnualCashFlowDCF
  dcfValue : ℚ
  goingInCapRate : ℚ
  internalRateOfReturn : Option ℚ
  netSaleProceedsTerminal : ℚ
  terminalValueGross : ℚ
  yearNPlusOneNOI : ℚ
deriving DecidableEq

def emptyResults : DCFResults :=
  { projectedCashFlowsDCF := [], dcfValue := 0, goingInCapRate := 0,
    internalRateOfReturn := none, netSaleProceedsTerminal := 0,
    terminalValueGross := 0, yearNPlusOneNOI := 0 }

/-! ## IRR solver (`solveIRR`)

`NaN` (cannot solve / failed to converge) is modelled as `none`. -/

def irrPrecision : ℚ := 1 / 10000000

/-- The NPV accumulation loop: the term for `cashFlows[t]` is
`cashFlows[t] / (1 + rate)^t`, starting at `t = 0`. -/
def npvFrom (rate : ℚ) : Nat → List ℚ → ℚ
  | _, [] => 0
  | t, c :: rest => c / (1 + rate) ^ t + npvFrom rate (t + 1) rest

def npvAt (cashFlows : List ℚ) (rate : ℚ) : ℚ := npvFrom rate 0 cashFlows

/-- The NPV-derivative accumulation loop: `-(t * cashFlows[t] / (1+rate)^(t+1))`
for `t > 0`. -/
def dnpvFrom (rate : ℚ) : Nat → List ℚ → ℚ
  | _, [] => 0
  | t, c :: rest =>
    (if 0 < t then -((t : ℚ) * c / (1 + rate) ^ (t + 1)) else 0) + dnpvFrom rate (t + 1) rest

def dnpvAt (cashFlows : List ℚ) (rate : ℚ) : ℚ := dnpvFrom rate 0 cashFlows

def solveIRRGo (cashFlows : List ℚ) : Nat → ℚ → Option ℚ
  | 0, _ => none
  | fuel + 1, rate =>
    let npv := npvAt cashFlows rate
    let dnpv := dnpvAt cashFlows rate
    if |npv| < irrPrecision then some (rate * 100)
    else if dnpv = 0 then none
    else solveIRRGo cashFlows fuel (rate - npv / dnpv)

def solveIRR (cashFlows : List ℚ) (guess : ℚ := 1 / 10) : Option ℚ :=
  if cashFlows.isEmpty then some 0
  else solveIRRGo cashFlows 100 guess

/-! ## Per-lease projection (`projectSingleLeaseCashFlows`) -/

structure ProjectedLeaseYearDetail where
  year : Int
  scheduledRent : ℚ
  reimbursements : ℚ
  tiCosts : ℚ
  lcCosts : ℚ
  isVacantAfterExpiry : Bool
deriving DecidableEq

def zeroDetailAt (currentAnalysisYear : Int) : ProjectedLeaseYearDetail :=
  { year := currentAnalysisYear, scheduledRent := 0, reimbursements := 0,
    tiCosts := 0, lcCosts := 0, isVacantAfterExpiry := false }

def zeroDetail : ProjectedLeaseYearDetail := zeroDetailAt 0

/-- The step-up loop: walk the sorted schedule, taking each step whose
`yearInLeaseTerm` the current lease year has reached, stopping (`break`) at
the first step it has not. -/
def stepRentLoop (cur : ℚ) (currentLeaseYearNumber : Int) :
    List StepUpEscalationEntry → ℚ
  | [] => cur
  | s :: rest =>
    if s.yearInLeaseTerm ≤ currentLeaseYearNumber then
      stepRentLoop s.rentPerSF currentLeaseYearNumber rest
    else cur

/-- Stable ascending sort by `yearInLeaseTerm`
(JS `sort((a, b) => a.yearInLeaseTerm - b.yearInLeaseTerm)`, which is stable
per ES2019: entries with equal keys keep their input order, so the inserted
element — which precedes the already-sorted tail in the input — goes before
any equal-key entry). -/
def insertByYear (x : StepUpEscalationEntry) :
    List StepUpEscalationEntry → List StepUpEscalationEntry
  | [] => [x]
  | s :: rest =>
    if x.yearInLeaseTerm ≤ s.yearInLeaseTerm then x :: s :: rest
    else s :: insertByYear x rest

def sortByYearInLeaseTerm :
    List StepUpEscalationEntry → List StepUpEscalationEntry
  | [] => []
  | s :: rest => insertByYear s (sortByYearInLeaseTerm rest)

def projectLeaseYear (lease : RentRollEntry) (effectiveDate : SimpleDate)
    (globalMarketRentGrowthPercent : ℚ) (projYearIdx : Nat) :
    ProjectedLeaseYearDetail :=
  let currentAnalysisYear : Int := projYearIdx + 1
  let yearStart := analysisYearStart effectiveDate projYearIdx
  let yearEnd := analysisYearEnd effectiveDate projYearIdx
  if dateLe lease.leaseStartDate yearEnd ∧ dateLe yearStart lease.leaseEndDate then
    -- lease active during some part of this analysis year
    let yil0 : Int := yearStart.y - lease.leaseStartDate.y
    let yil1 : Int :=
      if yearStart.m < lease.leaseStartDate.m ∨
         (yearStart.m = lease.leaseStartDate.m ∧ yearStart.d < lease.leaseStartDate.d)
      then yil0 - 1 else yil0
    let yearsIntoLeaseForEscalation : Nat := (max 0 yil1).toNat
    let baseAnnualRent := lease.squareFeet * lease.currentRentPerSF
    let currentLeaseYearNumber : Int := (yearsIntoLeaseForEscalation : Int) + 1
    let currentYearLeaseRent :=
      if lease.escalationType = EscalationType.fixedPercent ∧ 0 < lease.escalationPercent then
        baseAnnualRent * (1 + lease.escalationPercent / 100) ^ yearsIntoLeaseForEscalation
      else if lease.escalationType = EscalationType.stepUp ∧
              0 < (lease.stepUpSchedule.getD []).length then
        let sortedSchedule := sortByYearInLeaseTerm (lease.stepUpSchedule.getD [])
        lease.squareFeet * stepRentLoop lease.currentRentPerSF currentLeaseYearNumber sortedSchedule
      else if lease.escalationType = EscalationType.cpi then
        let escalationRateToApply :=
          lease.cpiEscalationRatePercent.getD globalMarketRentGrowthPercent
        let reviewFrequency := lease.cpiReviewFrequencyYears.getD 1
        if 0 < currentLeaseYearNumber ∧ 0 < reviewFrequency then
          let yearOfLastReviewApplication :=
            ((currentLeaseYearNumber - 1) / reviewFrequency) * reviewFrequency
          baseAnnualRent * (1 + escalationRateToApply / 100) ^ yearOfLastReviewApplication.toNat
        else baseAnnualRent
      else baseAnnualRent
    { year := currentAnalysisYear, scheduledRent := currentYearLeaseRent,
      reimbursements := 0, tiCosts := 0, lcCosts := 0, isVacantAfterExpiry := false }
  else if dateLt lease.leaseEndDate yearStart then
    -- lease expired before this analysis year starts
    let yearOfExpiry := lease.leaseEndDate.y
    let monthOfExpiry := lease.leaseEndDate.m
    if yearStart.y = yearOfExpiry + 1 ∨
       (yearStart.y = yearOfExpiry ∧ monthOfExpiry < yearStart.m) then
      if 50 ≤ lease.renewalProbabilityPercent then
        -- deterministic renewal
        let downtimeFactor := max 0 ((12 - lease.renewalDowntimeMonths) / 12)
        let renewalBaseRentPerSF :=
          if lease.renewRentBumpPercent ≠ 0 then
            let priorTermLength : Int := lease.leaseEndDate.y - lease.leaseStartDate.y
            let lastEscalatedRentSF :=
              if lease.escalationType = EscalationType.fixedPercent ∧
                 0 < lease.escalationPercent then
                lease.currentRentPerSF *
                  (1 + lease.escalationPercent / 100) ^ (max 0 priorTermLength).toNat
              else lease.currentRentPerSF
            lastEscalatedRentSF * (1 + lease.renewRentBumpPercent / 100)
          else lease.renewalMarketRentPerSF
        let yearsToInflateRenewalRent : Int := yearStart.y - effectiveDate.y
        let inflatedRenewalMarketRentPerSF :=
          renewalBaseRentPerSF *
            (1 + globalMarketRentGrowthPercent / 100) ^ (max 0 yearsToInflateRenewalRent).toNat
        { year := currentAnalysisYear,
          scheduledRent := lease.squareFeet * inflatedRenewalMarketRentPerSF * downtimeFactor,
          reimbursements := 0,
          tiCosts := lease.squareFeet * lease.renewalTiPerSF,
          lcCosts := lease.squareFeet * inflatedRenewalMarketRentPerSF *
            (lease.renewalLcPercentOfFirstYearRent / 100),
          isVacantAfterExpiry := false }
      else
        { year := currentAnalysisYear, scheduledRent := 0, reimbursements := 0,
          tiCosts := 0, lcCosts := 0, isVacantAfterExpiry := true }
    else zeroDetailAt currentAnalysisYear
  else zeroDetailAt currentAnalysisYear

def projectSingleLeaseCashFlows (lease : RentRollEntry) (inputs : AppraisalInputs) :
    List ProjectedLeaseYearDetail :=
  (List.range inputs.projectionYears.toNat).map
    (projectLeaseYear lease inputs.effectiveDate inputs.globalMarketRentGrowthPercent)

/-! ## Operating expenses (`calculateAnnualOperatingExpenses`) -/

def inflFactor (r : ℚ) (yearIndex : Nat) : ℚ := (1 + r / 100) ^ yearIndex

def inflatedBucketAmount (item : ExpenseItem) (yearIndex : Nat) (globalExpenseInflationPercent : ℚ) : ℚ :=
  item.amount * inflFactor (item.inflationRate.getD globalExpenseInflationPercent) yearIndex

/-- Recoverability: explicit flag wins; otherwise taxes/insurance/R&M default
to recoverable. -/
def bucketIsRecoverable (item : ExpenseItem) (isTypicallyRecoverable : Bool) : Bool :=
  match item.isRecoverable with
  | some b => b
  | none => isTypicallyRecoverable

/-- The management-fee percentage, itself inflated when an inflation rate is
configured on the management bucket. -/
def mgmtFeePercentInflated (item : ExpenseItem) (yearIndex : Nat) : ℚ :=
  match item.inflationRate with
  | some r => item.amount * inflFactor r yearIndex
  | none => item.amount

/-- Returns `(totalOpex, recoverableOpexTotal)`. -/
def calculateAnnualOperatingExpenses (baseOpex : OpexBuckets) (yearIndex : Nat)
    (globalExpenseInflationPercent : ℚ) (currentYearEGIForMgmtFee : ℚ) : ℚ × ℚ :=
  let nonMgmtBuckets : List (ExpenseItem × Bool) :=
    [(baseOpex.taxes, true), (baseOpex.insurance, true),
     (baseOpex.repairsMaintenance, true), (baseOpex.reserves, false)]
  let totalNonMgmt :=
    (nonMgmtBuckets.map (fun b =>
      inflatedBucketAmount b.1 yearIndex globalExpenseInflationPercent)).sum
  let recoverableTotal :=
    (nonMgmtBuckets.map (fun b =>
      if bucketIsRecoverable b.1 b.2 then
        inflatedBucketAmount b.1 yearIndex globalExpenseInflationPercent
      else 0)).sum
  let managementFee :=
    currentYearEGIForMgmtFee *
      (mgmtFeePercentInflated baseOpex.managementPercentOfEGI yearIndex / 100)
  (totalNonMgmt + managementFee, recoverableTotal)

/-! ## Terminal value (`calculateTerminalValue`) -/

structure TerminalValueResult where
  grossSaleProceeds : ℚ
  netSaleProceeds : ℚ
  yearNPlusOneNOI : ℚ
deriving DecidableEq

def calculateTerminalValue (finalYearNOI nextYearNOIGrowthRate exitCapRatePercent saleCostPercent : ℚ) :
    TerminalValueResult :=
  if exitCapRatePercent = 0 then
    { grossSaleProceeds := 0, netSaleProceeds := 0, yearNPlusOneNOI := 0 }
  else
    let yearNPlusOneNOI := finalYearNOI * (1 + nextYearNOIGrowthRate / 100)
    let grossSaleProceeds := yearNPlusOneNOI / (exitCapRatePercent / 100)
    let saleCosts := grossSaleProceeds * (saleCostPercent / 100)
    { grossSaleProceeds := grossSaleProceeds,
      netSaleProceeds := grossSaleProceeds - saleCosts,
      yearNPlusOneNOI := yearNPlusOneNOI }

/-! ## Per-lease tenant reimbursements (loop body of the granular
reimbursement calculation in `buildFullDCFCashFlows`) -/

def leaseReimbursement (lease : RentRollEntry) (recoverableOpexTotal totalRentableSF : ℚ) : ℚ :=
  let leaseProRataShare :=
    if 0 < lease.squareFeet ∧ 0 < totalRentableSF
    then lease.squareFeet / totalRentableSF else 0
  match lease.reimbursementType with
  | ReimbursementType.nnn =>
    let reimbursableForLease := recoverableOpexTotal * leaseProRataShare
    match lease.reimbursementDetails with
    | some det =>
      match det.adminFeeOnOpExPercent with
      | some fee =>
        if 0 < fee then reimbursableForLease + reimbursableForLease * (fee / 100)
        else reimbursableForLease
      | none => reimbursableForLease
    | none => reimbursableForLease
  | ReimbursementType.modifiedGross =>
    match lease.reimbursementDetails with
    | some det =>
      match det.expenseStopAmountPerSF with
      | some stop =>
        if 0 < stop then
          let expenseStopTotalForLease := stop * lease.squareFeet
          let reimbursableForLease :=
            max 0 (recoverableOpexTotal * leaseProRataShare - expenseStopTotalForLease)
          match det.adminFeeOnOpExPercent with
          | some fee =>
            if 0 < fee then reimbursableForLease + reimbursableForLease * (fee / 100)
            else reimbursableForLease
          | none => reimbursableForLease
        else 0
      | none => 0
    | none => 0
  | _ => 0

/-! ## Capital expenditures (per-item amount resolution) -/

def capexAmount (ce : CapitalExpenditureEntry) (potentialGrossRevenue effectiveGrossIncome rentableSF : ℚ) : ℚ :=
  match ce.amountType with
  | CapexAmountType.percentPGI => potentialGrossRevenue * ce.amount
  | CapexAmountType.percentEGI => effectiveGrossIncome * ce.amount
  | CapexAmountType.perSF => rentableSF * ce.amount
  | _ => ce.amount

/-! ## The yearly aggregation loop of `buildFullDCFCashFlows`

The two mutable running totals of the source
(`cumulativeVacantSFFromPriorYearNonRenewals`,
`sfLeasedInPriorYearsAndStillActive`) become an explicit `YearState` threaded
through the loop. -/

structure YearState where
  cumulativeVacantSFFromPriorYearNonRenewals : ℚ
  sfLeasedInPriorYearsAndStillActive : ℚ
deriving DecidableEq

def initialYearState : YearState :=
  { cumulativeVacantSFFromPriorYearNonRenewals := 0,
    sfLeasedInPriorYearsAndStillActive := 0 }

def initialVacantSF (inputs : AppraisalInputs) : ℚ :=
  inputs.rentableSF - (inputs.rentRoll.map (fun l => l.squareFeet)).sum

/-- `totalVacantSFAtStartOfYear`: the pool of vacant area the market-leasing
step is run against in year index `i`.  Note the source only injects the
initial building vacancy in the first year (`i === 0 ? initialVacantSF : 0`). -/
def poolExpr (initialVacant : ℚ) (i : Nat) (st : YearState) : ℚ :=
  max 0 ((if i = 0 then initialVacant else 0)
    + st.cumulativeVacantSFFromPriorYearNonRenewals
    - st.sfLeasedInPriorYearsAndStillActive)

/-- The market-leasing step run against the vacancy pool: returns
(speculative rent, TI, LC, updated leased-area total). -/
def marketLeasingStep (inputs : AppraisalInputs) (i : Nat)
    (totalVacantSFAtStartOfYear sfLeasedSoFar : ℚ) : ℚ × ℚ × ℚ × ℚ :=
  match inputs.marketLeasingAssumptions with
  | some mla =>
    if 0 < totalVacantSFAtStartOfYear then
      let sfToLeaseThisYear := totalVacantSFAtStartOfYear
      let inflatedMarketRentPerSF :=
        mla.marketRentNewLeasePerSF * (1 + inputs.globalMarketRentGrowthPercent / 100) ^ i
      let downtimeFactor := (max 0 (12 - mla.timeToLeaseVacantSFMonths)) / 12
      (sfToLeaseThisYear * inflatedMarketRentPerSF * downtimeFactor,
       sfToLeaseThisYear * mla.newLeaseTiPerSF,
       sfToLeaseThisYear * inflatedMarketRentPerSF * (mla.newLeaseLcPercent / 100),
       sfLeasedSoFar + sfToLeaseThisYear)
    else (0, 0, 0, sfLeasedSoFar)
  | none => (0, 0, 0, sfLeasedSoFar)

def buildYear (inputs : AppraisalInputs) (initialVacant : ℚ) (i : Nat) (st : YearState) :
    AnnualCashFlowDCF × YearState :=
  let currentYear : Int := i + 1
  let detail := fun (lease : RentRollEntry) =>
    (projectSingleLeaseCashFlows lease inputs).getD i zeroDetail
  let totalScheduledRentalRevenue :=
    (inputs.rentRoll.map (fun l => (detail l).scheduledRent)).sum
  let tiLcFromLeases :=
    (inputs.rentRoll.map (fun l => (detail l).tiCosts + (detail l).lcCosts)).sum
  let sfNewlyVacantThisYearFromNonRenewals :=
    (inputs.rentRoll.map (fun l =>
      if (detail l).isVacantAfterExpiry then l.squareFeet else 0)).sum
  let totalVacantSFAtStartOfYear := poolExpr initialVacant i st
  let marketStep : ℚ × ℚ × ℚ × ℚ :=
    marketLeasingStep inputs i totalVacantSFAtStartOfYear
      st.sfLeasedInPriorYearsAndStillActive
  let potentialMarketRentFromVacancy := marketStep.1
  let newMarketLeaseTICostsThisYear := marketStep.2.1
  let newMarketLeaseLCCostsThisYear := marketStep.2.2.1
  let sfLeasedAfter := marketStep.2.2.2
  let tenantImprovementsAndLcs :=
    tiLcFromLeases + newMarketLeaseTICostsThisYear + newMarketLeaseLCCostsThisYear
  let cumulativeVacantAfter :=
    st.cumulativeVacantSFFromPriorYearNonRenewals + sfNewlyVacantThisYearFromNonRenewals
  let potentialRentalIncome := totalScheduledRentalRevenue + potentialMarketRentFromVacancy
  let vacancyLossOnRental :=
    potentialRentalIncome * (inputs.generalVacancyRatePercentForProjections / 100)
  let creditLossOnRental :=
    (potentialRentalIncome - vacancyLossOnRental) * (inputs.creditCollectionLossPercent / 100)
  let effectiveGrossRentalIncome := potentialRentalIncome - vacancyLossOnRental - creditLossOnRental
  let currentYearOtherIncome :=
    ((inputs.otherIncome.getD []).map (fun item =>
      item.amount * (1 + (item.growthRate.getD inputs.globalMarketRentGrowthPercent) / 100) ^ i)).sum
  let opexResults :=
    calculateAnnualOperatingExpenses inputs.operatingExpensesBuckets i
      inputs.globalExpenseInflationPercent effectiveGrossRentalIncome
  let totalTenantReimbursementsThisYear :=
    (inputs.rentRoll.map (fun l =>
      leaseReimbursement l opexResults.2 inputs.rentableSF)).sum
  let potentialGrossRevenue :=
    totalScheduledRentalRevenue + totalTenantReimbursementsThisYear +
      currentYearOtherIncome + potentialMarketRentFromVacancy
  let effectiveGrossIncome := potentialGrossRevenue - vacancyLossOnRental - creditLossOnRental
  let operatingExpenses :=
    if effectiveGrossIncome ≠ effectiveGrossRentalIncome then
      let pct := mgmtFeePercentInflated inputs.operatingExpensesBuckets.managementPercentOfEGI i
      opexResults.1 - effectiveGrossRentalIncome * (pct / 100) + effectiveGrossIncome * (pct / 100)
    else opexResults.1
  let netOperatingIncome := effectiveGrossIncome - operatingExpenses
  let capitalExpenditures :=
    ((inputs.capitalExpenditures.filter (fun ce => ce.year = currentYear)).map
      (fun ce => capexAmount ce potentialGrossRevenue effectiveGrossIncome inputs.rentableSF)).sum
  let netCashFlow := netOperatingIncome - tenantImprovementsAndLcs - capitalExpenditures
  ({ year := currentYear
     potentialBaseRent := 0
     scheduledEscalationsRevenue := 0
     potentialMarketRentFromVacancy := potentialMarketRentFromVacancy
     totalScheduledRentalRevenue := totalScheduledRentalRevenue
     tenantReimbursementsNNN := totalTenantReimbursementsThisYear
     potentialGrossRevenue := potentialGrossRevenue
     generalVacancyLoss := vacancyLossOnRental
     creditLoss := creditLossOnRental
     effectiveGrossIncome := effectiveGrossIncome
     operatingExpenses := operatingExpenses
     netOperatingIncome := netOperatingIncome
     tenantImprovementsAndLcs := tenantImprovementsAndLcs
     capitalExpenditures := capitalExpenditures
     netCashFlow := netCashFlow
     presentValueFactor := 0
     presentValueOfNetCashFlow := 0
     netCashFlowWithTerminal := netCashFlow },
   { cumulativeVacantSFFromPriorYearNonRenewals := cumulativeVacantAfter,
     sfLeasedInPriorYearsAndStillActive := sfLeasedAfter })

def runYears (inputs : AppraisalInputs) (initialVacant : ℚ) :
    List Nat → YearState → List AnnualCashFlowDCF
  | [], _ => []
  | i :: rest, st =>
    let r := buildYear inputs initialVacant i st
    r.1 :: runYears inputs initialVacant rest r.2

/-- The state carried into year index `i` of the loop. -/
def yearStateAt (inputs : AppraisalInputs) (i : Nat) : YearState :=
  (List.range i).foldl
    (fun st j => (buildYear inputs (initialVacantSF inputs) j st).2) initialYearState

/-- The annual records as produced by the projection loop, before the
terminal-value adjustment and the present-value pass. -/
def rawYearRecords (inputs : AppraisalInputs) : List AnnualCashFlowDCF :=
  runYears inputs (initialVacantSF inputs)
    (List.range inputs.projectionYears.toNat) initialYearState

def finalYearNOIOf (inputs : AppraisalInputs) : ℚ :=
  (((rawYearRecords inputs).get? (inputs.projectionYears.toNat - 1)).map
    (fun cf => cf.netOperatingIncome)).getD 0

def terminalOf (inputs : AppraisalInputs) : TerminalValueResult :=
  calculateTerminalValue (finalYearNOIOf inputs) inputs.globalMarketRentGrowthPercent
    inputs.exitCapRate inputs.saleCostPercent

/-- Adding the terminal net sale proceeds to a record's
`netCashFlowWithTerminal` (applied to the final projection year). -/
def terminalAdjust (inputs : AppraisalInputs) (cf : AnnualCashFlowDCF) : AnnualCashFlowDCF :=
  { cf with netCashFlowWithTerminal :=
      cf.netCashFlowWithTerminal + (terminalOf inputs).netSaleProceeds }

def dcfRecordsCore (inputs : AppraisalInputs) : List AnnualCashFlowDCF :=
  if (rawYearRecords inputs).length = inputs.projectionYears.toNat then
    match (rawYearRecords inputs).getLast? with
    | some last =>
      (rawYearRecords inputs).set ((rawYearRecords inputs).length - 1)
        (terminalAdjust inputs last)
    | none => rawYearRecords inputs
  else rawYearRecords inputs

/-- One record of the present-value pass: fills `presentValueFactor` and
`presentValueOfNetCashFlow`. -/
def pvUpdate (discountRatePercent : ℚ) (cf : AnnualCashFlowDCF) : AnnualCashFlowDCF :=
  let f := 1 / (1 + discountRatePercent / 100) ^ cf.year.toNat
  { cf with presentValueFactor := f,
            presentValueOfNetCashFlow := cf.netCashFlowWithTerminal * f }

/-- The present-value pass over the whole record list. -/
def applyPV (discountRatePercent : ℚ) (cfs : List AnnualCashFlowDCF) : List AnnualCashFlowDCF :=
  cfs.map (pvUpdate discountRatePercent)

def buildFullDCFCashFlows (inputs : AppraisalInputs) : Option DCFResults :=
  if inputs.projectionYears ≤ 0 then none
  else
    let cashFlows := applyPV inputs.discountRatePercent (dcfRecordsCore inputs)
    let sumOfPVs := (cashFlows.map (fun cf => cf.presentValueOfNetCashFlow)).sum
    let dcfValue := sumOfPVs
    let year1NOI := ((cashFlows.get? 0).map (fun cf => cf.netOperatingIncome)).getD 0
    let goingInCapRate := if dcfValue ≠ 0 then year1NOI / dcfValue * 100 else 0
    let irrCashFlows := -dcfValue :: cashFlows.map (fun cf => cf.netCashFlowWithTerminal)
    some { projectedCashFlowsDCF := cashFlows
           dcfValue := dcfValue
           goingInCapRate := goingInCapRate
           internalRateOfReturn := solveIRR irrCashFlows
           netSaleProceedsTerminal := (terminalOf inputs).netSaleProceeds
           terminalValueGross := (terminalOf inputs).grossSaleProceeds
           yearNPlusOneNOI := (terminalOf inputs).yearNPlusOneNOI }

/-- Total present value as a function of the discount rate alone, with all
other inputs fixed (the cash-flow records of `dcfRecordsCore` do not depend
on the discount rate; only the discounting pass does). -/
def dcfValueAtRate (inputs : AppraisalInputs) (d : ℚ) : ℚ :=
  ((dcfRecordsCore inputs).map (fun cf =>
    cf.netCashFlowWithTerminal * (1 / (1 + d / 100) ^ cf.year.toNat))).sum

/-! ## Concrete fixtures used to instantiate the theorems -/

def zeroExpenseItem : ExpenseItem :=
  { amount := 0, inflationRate := none, isRecoverable := none }

def zeroOpexBuckets : OpexBuckets :=
  { taxes := zeroExpenseItem, insurance := zeroExpenseItem,
    repairsMaintenance := zeroExpenseItem, managementPercentOfEGI := zeroExpenseItem,
    reserves := zeroExpenseItem }

def jan1_2024 : SimpleDate := { y := 2024, m := 0, d := 1 }

def baseLease : RentRollEntry :=
  { squareFeet := 0, currentRentPerSF := 0,
    leaseStartDate := jan1_2024, leaseEndDate := jan1_2024,
    escalationType := EscalationType.blank, escalationPercent := 0,
    cpiEscalationRatePercent := none, cpiReviewFrequencyYears := none,
    stepUpSchedule := none,
    reimbursementType := ReimbursementType.gross, reimbursementDetails := none,
    renewalProbabilityPercent := 0, renewRentBumpPercent := 0,
    renewalDowntimeMonths := 0, renewalMarketRentPerSF := 0,
    renewalTiPerSF := 0, renewalLcPercentOfFirstYearRent := 0 }

def baseInputs : AppraisalInputs :=
  { effectiveDate := jan1_2024, rentableSF := 0, projectionYears := 1,
    globalMarketRentGrowthPercent := 0, globalExpenseInflationPercent := 0,
    generalVacancyRatePercentForProjections := 0, creditCollectionLossPercent := 0,
    discountRatePercent := 0, exitCapRate := 0, saleCostPercent := 0,
    operatingExpensesBuckets := zeroOpexBuckets, otherIncome := none,
    rentRoll := [], capitalExpenditures := [], marketLeasingAssumptions := none }

/-- The §8 scenario lease: 1,000 sq ft at 15.00/sq-ft/yr, FixedPercent(2.5%),
term 2024-01-01 through 2034-12-31. -/
def scenarioLease : RentRollEntry :=
  { baseLease with
    squareFeet := 1000, currentRentPerSF := 15,
    leaseStartDate := jan1_2024,
    leaseEndDate := { y := 2034, m := 11, d := 31 },
    escalationType := EscalationType.fixedPercent, escalationPercent := 5 / 2 }

def scenarioInputs : AppraisalInputs :=
  { baseInputs with
    rentableSF := 1000, projectionYears := 10,
    rentRoll := [scenarioLease] }

/-- A lease with a negative fixed escalation rate (−5%), otherwise as the
scenario lease. -/
def negEscLease : RentRollEntry :=
  { scenarioLease with escalationPercent := -5 }

def negEscInputs : AppraisalInputs :=
  { scenarioInputs with rentRoll := [negEscLease], projectionYears := 3 }

/-- A lease that expires mid-way through the first analysis year
(2024-06-30) and does not renew (probability 0%). -/
def expiringLease : RentRollEntry :=
  { baseLease with
    squareFeet := 50, currentRentPerSF := 10,
    leaseStartDate := jan1_2024,
    leaseEndDate := { y := 2024, m := 5, d := 30 },
    escalationType := EscalationType.fixedPercent,
    reimbursementType := ReimbursementType.gross,
    renewalProbabilityPercent := 0 }

/-- Fixture for the vacancy-pool claim: 150 sq ft rentable, one 50 sq-ft
lease (initial vacancy 100), market-leasing assumptions configured at
1/sq-ft with zero downtime/TI/LC, three projection years. -/
def poolInputs : AppraisalInputs :=
  { baseInputs with
    rentableSF := 150, projectionYears := 3,
    rentRoll := [expiringLease],
    marketLeasingAssumptions := some
      { marketRentNewLeasePerSF := 1, timeToLeaseVacantSFMonths := 0,
        newLeaseTiPerSF := 0, newLeaseLcPercent := 0 } }

/-- Fixture for the reimbursement claim: an NNN lease that is expired (hence
inactive) in the second projection year, with 1000 of recoverable taxes. -/
def reimbInputs : AppraisalInputs :=
  { baseInputs with
    rentableSF := 100, projectionYears := 2,
    rentRoll := [{ expiringLease with reimbursementType := ReimbursementType.nnn }],
    operatingExpensesBuckets :=
      { zeroOpexBuckets with taxes := { zeroExpenseItem with amount := 1000 } } }

/-- Fixture with a strictly positive cash-flow stream: 1000 of other income,
10% exit cap, one projection year, discount rate 5%. -/
def posFlowInputs : AppraisalInputs :=
  { baseInputs with
    projectionYears := 1, exitCapRate := 10,
    discountRatePercent := 5,
    otherIncome := some [{ amount := 1000, growthRate := none }] }

/-- All-zero cash flows at a 5% discount rate (empty rent roll, no income,
no expenses), two projection years. -/
def zeroFlowInputs : AppraisalInputs :=
  { baseInputs with projectionYears := 2, discountRatePercent := 5 }

/-- The same all-zero inputs at a 10% discount rate. -/
def zeroFlowInputsHi : AppraisalInputs :=
  { zeroFlowInputs with discountRatePercent := 10 }

/-- Fixture with a percent-of-PGI capital item in year 1 (raw amount 1/50,
i.e. 2% written as a fraction, as the UI stores it). -/
def capexInputs : AppraisalInputs :=
  { posFlowInputs with
    capitalExpenditures :=
      [{ year := 1, amountType := CapexAmountType.percentPGI, amount := 1 / 50 }] }

def zeroHorizonInputs : AppraisalInputs := { baseInputs with projectionYears := 0 }

def twoYearInputs : AppraisalInputs := { baseInputs with projectionYears := 2 }

/-! ## Helper lemmas: tracing records back to the projection loop -/

theorem mem_or_eq_of_mem_set {α : Type} {l : List α} {n : Nat} {v a : α}
    (h : a ∈ l.set n v) : a ∈ l ∨ a = v := by
  induction l generalizing n with
  | nil => simp [List.set] at h
  | cons x xs ih =>
    cases n with
    | zero =>
      rcases List.mem_cons.mp h with h1 | h1
      · exact Or.inr h1
      · exact Or.inl (List.mem_cons_of_mem _ h1)
    | succ n =>
      rcases List.mem_cons.mp h with h1 | h1
      · exact Or.inl (h1 ▸ List.mem_cons_self _ _)
      · rcases ih h1 with h2 | h2
        · exact Or.inl (List.mem_cons_of_mem _ h2)
        · exact Or.inr h2

theorem mem_of_getLast?_eq_some {α : Type} {l : List α} {a : α}
    (h : l.getLast? = some a) : a ∈ l := by
  induction l with
  | nil => simp [List.getLast?] at h
  | cons x xs ih =>
    cases xs with
    | nil =>
      simp [List.getLast?] at h
      exact h ▸ List.mem_cons_self _ _
    | cons y ys =>
      rw [List.getLast?_cons_cons] at h
      exact List.mem_cons_of_mem _ (ih h)

/-- Every record emitted by the year loop is the first component of some
`buildYear` application. -/
theorem mem_runYears {inputs : AppraisalInputs} {v : ℚ} {idxs : List Nat}
    {st : YearState} {cf : AnnualCashFlowDCF}
    (h : cf ∈ runYears inputs v idxs st) :
    ∃ i st', cf = (buildYear inputs v i st').1 := by
  induction idxs generalizing st with
  | nil => simp [runYears] at h
  | cons i rest ih =>
    rw [runYears] at h
    rcases List.mem_cons.mp h with h1 | h1
    · exact ⟨i, st, h1⟩
    · exact ih h1

theorem mem_rawYearRecords {inputs : AppraisalInputs} {cf : AnnualCashFlowDCF}
    (h : cf ∈ rawYearRecords inputs) :
    ∃ i st, cf = (buildYear inputs (initialVacantSF inputs) i st).1 :=
  mem_runYears h

/-- Every record of `dcfRecordsCore` is a loop record, possibly with the
terminal net sale proceeds added to `netCashFlowWithTerminal`. -/
theorem mem_dcfRecordsCore {inputs : AppraisalInputs} {cf : AnnualCashFlowDCF}
    (h : cf ∈ dcfRecordsCore inputs) :
    ∃ cf0, (∃ i st, cf0 = (buildYear inputs (initialVacantSF inputs) i st).1) ∧
      (cf = cf0 ∨ cf = terminalAdjust inputs cf0) := by
  unfold dcfRecordsCore at h
  split at h
  · split at h
    next last hlast =>
      rcases mem_or_eq_of_mem_set h with h1 | h1
      · exact ⟨cf, mem_rawYearRecords h1, Or.inl rfl⟩
      · exact ⟨last, mem_rawYearRecords (mem_of_getLast?_eq_some hlast), Or.inr h1⟩
    next => exact ⟨cf, mem_rawYearRecords h, Or.inl rfl⟩
  · exact ⟨cf, mem_rawYearRecords h, Or.inl rfl⟩

/-- Every record of the final output list arises from a `dcfRecordsCore`
record by filling the two present-value fields. -/
theorem mem_applyPV {d : ℚ} {l : List AnnualCashFlowDCF} {cf : AnnualCashFlowDCF}
    (h : cf ∈ applyPV d l) :
    ∃ cf1 ∈ l, cf = pvUpdate d cf1 := by
  unfold applyPV at h
  rcases List.mem_map.mp h with ⟨cf1, hmem, heq⟩
  exact ⟨cf1, hmem, heq.symm⟩

/-- If the engine returns a result, its record list is the discounted core
record list. -/
theorem records_of_buildFull {inputs : AppraisalInputs} {res : DCFResults}
    (hres : buildFullDCFCashFlows inputs = some res) :
    res.projectedCashFlowsDCF = applyPV inputs.discountRatePercent (dcfRecordsCore inputs) := by
  unfold buildFullDCFCashFlows at hres
  split at hres
  · exact absurd hres (by simp)
  · exact (Option.some.inj hres).symm ▸ rfl

/-! ## `buildYear` field identities (read off the construction) -/

theorem buildYear_egi (inputs : AppraisalInputs) (v : ℚ) (i : Nat) (st : YearState) :
    (buildYear inputs v i st).1.effectiveGrossIncome =
      (buildYear inputs v i st).1.potentialGrossRevenue -
      (buildYear inputs v i st).1.generalVacancyLoss -
      (buildYear inputs v i st).1.creditLoss := rfl

theorem buildYear_noi (inputs : AppraisalInputs) (v : ℚ) (i : Nat) (st : YearState) :
    (buildYear inputs v i st).1.netOperatingIncome =
      (buildYear inputs v i st).1.effectiveGrossIncome -
      (buildYear inputs v i st).1.operatingExpenses := rfl

theorem buildYear_ncfwt (inputs : AppraisalInputs) (v : ℚ) (i : Nat) (st : YearState) :
    (buildYear inputs v i st).1.netCashFlowWithTerminal =
      (buildYear inputs v i st).1.netCashFlow := rfl

theorem buildYear_year (inputs : AppraisalInputs) (v : ℚ) (i : Nat) (st : YearState) :
    (buildYear inputs v i st).1.year = (i : Int) + 1 := rfl

/-! ## C1 -/

/-- C1: for every annual cash-flow record produced by `buildFullDCFCashFlows`
on an input with projection horizon ≥ 1, the identities
`effectiveGrossIncome = potentialGrossRevenue − generalVacancyLoss − creditLoss`
and `netOperatingIncome = effectiveGrossIncome − operatingExpenses` hold
exactly. -/
theorem C1_egi_noi_identities (inputs : AppraisalInputs) (res : DCFResults)
    (_hN : 1 ≤ inputs.projectionYears)
    (hres : buildFullDCFCashFlows inputs = some res) :
    ∀ cf ∈ res.projectedCashFlowsDCF,
      cf.effectiveGrossIncome =
        cf.potentialGrossRevenue - cf.generalVacancyLoss - cf.creditLoss ∧
      cf.netOperatingIncome = cf.effectiveGrossIncome - cf.operatingExpenses := by
  intro cf hcf
  rw [records_of_buildFull hres] at hcf
  rcases mem_applyPV hcf with ⟨cf1, h1, rfl⟩
  rcases mem_dcfRecordsCore h1 with ⟨cf0, ⟨i, st, rfl⟩, hcase⟩
  rcases hcase with rfl | rfl
  · exact ⟨buildYear_egi _ _ _ _, buildYear_noi _ _ _ _⟩
  · exact ⟨buildYear_egi _ _ _ _, buildYear_noi _ _ _ _⟩

def c1Res : DCFResults := (buildFullDCFCashFlows baseInputs).getD emptyResults

def c1CF : AnnualCashFlowDCF := c1Res.projectedCashFlowsDCF.getD 0 zeroCF

theorem C1_egi_noi_identities_witness :
    c1CF.effectiveGrossIncome =
      c1CF.potentialGrossRevenue - c1CF.generalVacancyLoss - c1CF.creditLoss ∧
    c1CF.netOperatingIncome = c1CF.effectiveGrossIncome - c1CF.operatingExpenses :=
  C1_egi_noi_identities baseInputs c1Res (by norm_num [baseInputs]) rfl c1CF (by
    rw [show c1Res.projectedCashFlowsDCF = [c1CF] from rfl]
    exact List.mem_singleton_self c1CF)

/-! ## Length lemmas -/

theorem length_runYears (inputs : AppraisalInputs) (v : ℚ) :
    ∀ (idxs : List Nat) (st : YearState),
      (runYears inputs v idxs st).length = idxs.length := by
  intro idxs
  induction idxs with
  | nil => intro st; rfl
  | cons i rest ih => intro st; simp [runYears, ih]

theorem length_rawYearRecords (inputs : AppraisalInputs) :
    (rawYearRecords inputs).length = inputs.projectionYears.toNat := by
  unfold rawYearRecords
  rw [length_runYears]
  exact List.length_range _

theorem length_dcfRecordsCore (inputs : AppraisalInputs) :
    (dcfRecordsCore inputs).length = inputs.projectionYears.toNat := by
  unfold dcfRecordsCore
  split
  · split
    · rw [List.length_set]; exact length_rawYearRecords _
    · exact length_rawYearRecords _
  · exact length_rawYearRecords _

theorem length_applyPV (d : ℚ) (l : List AnnualCashFlowDCF) :
    (applyPV d l).length = l.length := List.length_map _ _

theorem netSale_of_buildFull {inputs : AppraisalInputs} {res : DCFResults}
    (hres : buildFullDCFCashFlows inputs = some res) :
    res.netSaleProceedsTerminal = (terminalOf inputs).netSaleProceeds := by
  unfold buildFullDCFCashFlows at hres
  split at hres
  · exact absurd hres (by simp)
  · exact (Option.some.inj hres).symm ▸ rfl

theorem rawYearRecords_ncfwt (inputs : AppraisalInputs) (i : Nat)
    (h : i < (rawYearRecords inputs).length) :
    ((rawYearRecords inputs)[i]).netCashFlowWithTerminal =
      ((rawYearRecords inputs)[i]).netCashFlow := by
  rcases mem_rawYearRecords (List.getElem_mem h) with ⟨j, st, heq⟩
  rw [heq]
  exact buildYear_ncfwt _ _ _ _

/-- Indexing characterisation of `dcfRecordsCore`: the final projection
year's record gets the terminal adjustment, every other record is the loop
record unchanged. -/
theorem dcfRecordsCore_getElem? (inputs : AppraisalInputs) (i : Nat) :
    (dcfRecordsCore inputs)[i]? =
      if i + 1 = (rawYearRecords inputs).length then
        ((rawYearRecords inputs)[i]?).map (terminalAdjust inputs)
      else (rawYearRecords inputs)[i]? := by
  unfold dcfRecordsCore
  rw [if_pos (length_rawYearRecords inputs)]
  rcases hr : (rawYearRecords inputs).getLast? with _ | last
  · rw [List.getLast?_eq_none_iff] at hr
    rw [hr]
    simp
  · have hne : rawYearRecords inputs ≠ [] := by
      intro hnil
      rw [hnil] at hr
      simp [List.getLast?] at hr
    have hlen : 0 < (rawYearRecords inputs).length := List.length_pos.mpr hne
    rw [List.getElem?_set]
    by_cases hi : (rawYearRecords inputs).length - 1 = i
    · have hlast : (rawYearRecords inputs)[i]? = some last := by
        rw [← hi, ← List.getLast?_eq_getElem?]
        exact hr
      rw [if_pos hi, if_pos (by omega), if_pos (by omega), hlast, Option.map_some']
    · rw [if_neg hi, if_neg (by omega)]

/-! ## C9 -/

/-- C9: a projection horizon ≤ 0 yields an absent result (`none`) rather
than an exception; a horizon ≥ 1 yields a present result whose cash-flow
sequence has length equal to the horizon. -/
theorem C9_horizon_behavior (inputs : AppraisalInputs) :
    (inputs.projectionYears ≤ 0 → buildFullDCFCashFlows inputs = none) ∧
    (1 ≤ inputs.projectionYears →
      ∃ res, buildFullDCFCashFlows inputs = some res ∧
        (res.projectedCashFlowsDCF.length : Int) = inputs.projectionYears) := by
  constructor
  · intro h
    unfold buildFullDCFCashFlows
    rw [if_pos h]
  · intro h
    unfold buildFullDCFCashFlows
    rw [if_neg (by omega)]
    refine ⟨_, rfl, ?_⟩
    simp only [length_applyPV, length_dcfRecordsCore]
    omega

theorem C9_horizon_behavior_witness :
    buildFullDCFCashFlows zeroHorizonInputs = none ∧
    (buildFullDCFCashFlows twoYearInputs).map
      (fun res => (res.projectedCashFlowsDCF.length : Int)) = some 2 := by
  constructor
  · exact (C9_horizon_behavior zeroHorizonInputs).1 (by norm_num [zeroHorizonInputs, baseInputs])
  · obtain ⟨res, hres, hlen⟩ :=
      (C9_horizon_behavior twoYearInputs).2 (by norm_num [twoYearInputs, baseInputs])
    rw [hres, Option.map_some']
    exact congrArg some (by rw [hlen]; norm_num [twoYearInputs, baseInputs])

/-! ## C5 -/

/-- C5: terminal value: `yearNPlusOneNOI = finalYearNOI * (1 + g/100)`,
`grossReversion = yearNPlusOneNOI / (exitCap/100)`,
`netReversion = grossReversion * (1 − saleCost/100)`, each exact; a zero
exit cap rate gives all-zero outputs with no division; and the net
reversion is added to the final projection year's
`netCashFlowWithTerminal` only. -/
theorem C5_terminal_value :
    (∀ finalNOI g cap sc : ℚ, cap ≠ 0 →
      calculateTerminalValue finalNOI g cap sc =
        { grossSaleProceeds := finalNOI * (1 + g / 100) / (cap / 100),
          netSaleProceeds := finalNOI * (1 + g / 100) / (cap / 100) * (1 - sc / 100),
          yearNPlusOneNOI := finalNOI * (1 + g / 100) }) ∧
    (∀ finalNOI g sc : ℚ, calculateTerminalValue finalNOI g 0 sc =
      { grossSaleProceeds := 0, netSaleProceeds := 0, yearNPlusOneNOI := 0 }) ∧
    (∀ (inputs : AppraisalInputs) (res : DCFResults),
      buildFullDCFCashFlows inputs = some res →
      ∀ (i : Nat) (h : i < res.projectedCashFlowsDCF.length),
        (i + 1 < res.projectedCashFlowsDCF.length →
          (res.projectedCashFlowsDCF[i]).netCashFlowWithTerminal =
            (res.projectedCashFlowsDCF[i]).netCashFlow) ∧
        (i + 1 = res.projectedCashFlowsDCF.length →
          (res.projectedCashFlowsDCF[i]).netCashFlowWithTerminal =
            (res.projectedCashFlowsDCF[i]).netCashFlow + res.netSaleProceedsTerminal)) := by
  refine ⟨?_, ?_, ?_⟩
  · intro finalNOI g cap sc hcap
    have hnet : finalNOI * (1 + g / 100) / (cap / 100) -
        finalNOI * (1 + g / 100) / (cap / 100) * (sc / 100) =
        finalNOI * (1 + g / 100) / (cap / 100) * (1 - sc / 100) := by ring
    unfold calculateTerminalValue
    rw [if_neg hcap, ← hnet]
  · intro finalNOI g sc
    unfold calculateTerminalValue
    rw [if_pos rfl]
  · intro inputs res hres i h
    have hnet := netSale_of_buildFull hres
    have hrec := records_of_buildFull hres
    have hlenr : res.projectedCashFlowsDCF.length = (rawYearRecords inputs).length := by
      rw [hrec, length_applyPV, length_dcfRecordsCore, length_rawYearRecords]
    have hiraw : i < (rawYearRecords inputs).length := by omega
    have hqraw : (rawYearRecords inputs)[i]? = some ((rawYearRecords inputs)[i]) :=
      List.getElem?_eq_getElem hiraw
    have hself : res.projectedCashFlowsDCF[i]? = some (res.projectedCashFlowsDCF[i]) :=
      List.getElem?_eq_getElem h
    have hchain : res.projectedCashFlowsDCF[i]? =
        ((dcfRecordsCore inputs)[i]?).map (pvUpdate inputs.discountRatePercent) := by
      rw [hrec]
      exact List.getElem?_map _ _ _
    by_cases hcase : i + 1 = (rawYearRecords inputs).length
    · have hval : res.projectedCashFlowsDCF[i]? =
          some (pvUpdate inputs.discountRatePercent
            (terminalAdjust inputs ((rawYearRecords inputs)[i]))) := by
        rw [hchain, dcfRecordsCore_getElem?, if_pos hcase, hqraw, Option.map_some',
          Option.map_some']
      have heq : res.projectedCashFlowsDCF[i] =
          pvUpdate inputs.discountRatePercent
            (terminalAdjust inputs ((rawYearRecords inputs)[i])) :=
        Option.some.inj (hself.symm.trans hval)
      constructor
      · intro hlt
        exact absurd hlt (by omega)
      · intro _
        rw [heq, hnet]
        simp only [pvUpdate, terminalAdjust]
        rw [rawYearRecords_ncfwt inputs i hiraw]
    · have hval : res.projectedCashFlowsDCF[i]? =
          some (pvUpdate inputs.discountRatePercent ((rawYearRecords inputs)[i])) := by
        rw [hchain, dcfRecordsCore_getElem?, if_neg hcase, hqraw, Option.map_some']
      have heq : res.projectedCashFlowsDCF[i] =
          pvUpdate inputs.discountRatePercent ((rawYearRecords inputs)[i]) :=
        Option.some.inj (hself.symm.trans hval)
      constructor
      · intro _
        rw [heq]
        simp only [pvUpdate]
        exact rawYearRecords_ncfwt inputs i hiraw
      · intro heqlen
        exact absurd heqlen (by omega)

def c5Res : DCFResults := (buildFullDCFCashFlows posFlowInputs).getD emptyResults

theorem C5_terminal_value_witness :
    calculateTerminalValue 1000 0 10 0 =
      { grossSaleProceeds := 1000 * (1 + 0 / 100) / (10 / 100),
        netSaleProceeds := 1000 * (1 + 0 / 100) / (10 / 100) * (1 - 0 / 100),
        yearNPlusOneNOI := 1000 * (1 + 0 / 100) } ∧
    calculateTerminalValue 5 3 0 7 =
      { grossSaleProceeds := 0, netSaleProceeds := 0, yearNPlusOneNOI := 0 } ∧
    (c5Res.projectedCashFlowsDCF.getD 0 zeroCF).netCashFlowWithTerminal =
      (c5Res.projectedCashFlowsDCF.getD 0 zeroCF).netCashFlow + c5Res.netSaleProceedsTerminal := by
  have hlen : c5Res.projectedCashFlowsDCF.length = 1 := rfl
  have h0 : (0 : Nat) < c5Res.projectedCashFlowsDCF.length := by omega
  refine ⟨C5_terminal_value.1 1000 0 10 0 (by norm_num),
          C5_terminal_value.2.1 5 3 7, ?_⟩
  have hmain := (C5_terminal_value.2.2 posFlowInputs c5Res rfl 0 h0).2 (by omega)
  rw [List.getD_eq_getElem?_getD, List.getElem?_eq_getElem h0, Option.getD_some]
  exact hmain

/-! ## C2 -/

theorem not_dateLe_of_dateLt {a b : SimpleDate} (h : dateLt a b) : ¬ dateLe b a := by
  intro hle
  rcases h with h1 | ⟨hy1, hmd1⟩
  · rcases hle with h3 | ⟨hy3, _⟩ <;> omega
  · rcases hle with h3 | ⟨hy3, hmd3⟩
    · omega
    · rcases hmd1 with hm1 | ⟨hm1, hd1⟩ <;> rcases hmd3 with hm3 | ⟨hm3, hd3⟩ <;> omega

/-- The source's guard for the renewal test in projection year index `i`:
the lease expired before the year starts, and the year is the one
immediately following expiry. -/
def renewalWindowAt (lease : RentRollEntry) (eff : SimpleDate) (i : Nat) : Prop :=
  dateLt lease.leaseEndDate (analysisYearStart eff i) ∧
  ((analysisYearStart eff i).y = lease.leaseEndDate.y + 1 ∨
   ((analysisYearStart eff i).y = lease.leaseEndDate.y ∧
     lease.leaseEndDate.m < (analysisYearStart eff i).m))

instance (lease : RentRollEntry) (eff : SimpleDate) (i : Nat) :
    Decidable (renewalWindowAt lease eff i) := by
  unfold renewalWindowAt; infer_instance

/-- C2: the engine is a pure function of its inputs — equal input structures
give equal `DCFResults` — and the renewal test is deterministic: within the
renewal window a lease renews (is not marked vacant) iff its renewal
probability is ≥ 50%, with no random draw. -/
theorem C2_determinism_renewal_threshold :
    (∀ inputs1 inputs2 : AppraisalInputs, inputs1 = inputs2 →
      buildFullDCFCashFlows inputs1 = buildFullDCFCashFlows inputs2) ∧
    (∀ (lease : RentRollEntry) (eff : SimpleDate) (g : ℚ) (i : Nat),
      renewalWindowAt lease eff i →
      ((projectLeaseYear lease eff g i).isVacantAfterExpiry = false ↔
        50 ≤ lease.renewalProbabilityPercent)) := by
  constructor
  · intro inputs1 inputs2 h
    rw [h]
  · intro lease eff g i hw
    rcases hw with ⟨hlt, hyr⟩
    have hnact : ¬(dateLe lease.leaseStartDate (analysisYearEnd eff i) ∧
        dateLe (analysisYearStart eff i) lease.leaseEndDate) := by
      intro hc
      exact not_dateLe_of_dateLt hlt hc.2
    simp only [projectLeaseYear]
    rw [if_neg hnact, if_pos hlt, if_pos hyr]
    by_cases hp : 50 ≤ lease.renewalProbabilityPercent
    · rw [if_pos hp]
      simp [hp]
    · rw [if_neg hp]
      simp [hp]

/-- A lease expiring 2024-06-30 with renewal probability 60%. -/
def renewingLease : RentRollEntry :=
  { expiringLease with renewalProbabilityPercent := 60 }

theorem C2_determinism_renewal_threshold_witness :
    buildFullDCFCashFlows poolInputs = buildFullDCFCashFlows poolInputs ∧
    ((projectLeaseYear renewingLease jan1_2024 0 1).isVacantAfterExpiry = false ↔
      50 ≤ renewingLease.renewalProbabilityPercent) :=
  ⟨C2_determinism_renewal_threshold.1 poolInputs poolInputs rfl,
   C2_determinism_renewal_threshold.2 renewingLease jan1_2024 0 1 (by
     constructor
     · rw [show analysisYearStart jan1_2024 1 = { y := 2025, m := 0, d := 1 } from rfl]
       rw [show renewingLease.leaseEndDate = { y := 2024, m := 5, d := 30 } from rfl]
       unfold dateLt
       norm_num
     · rw [show analysisYearStart jan1_2024 1 = { y := 2025, m := 0, d := 1 } from rfl]
       rw [show renewingLease.leaseEndDate = { y := 2024, m := 5, d := 30 } from rfl]
       norm_num)⟩

/-! ## C4 -/

/-- C4: `solveIRR` returns 0 on an empty series; otherwise it runs
Newton-Raphson from the default initial guess 10% with an iteration cap of
100, returning `rate * 100` (a percentage) as soon as `|NPV(rate)| < 1e-7`,
the not-a-number sentinel (`none`) when the derivative is exactly zero, one
Newton step `rate − NPV/NPV'` otherwise, and the sentinel when the
iteration budget is exhausted. -/
theorem C4_solveIRR_behavior :
    solveIRR [] = some 0 ∧
    (∀ cashFlows : List ℚ, cashFlows ≠ [] →
      solveIRR cashFlows = solveIRRGo cashFlows 100 (1 / 10)) ∧
    (∀ (cashFlows : List ℚ) (fuel : Nat) (rate : ℚ),
      |npvAt cashFlows rate| < irrPrecision →
      solveIRRGo cashFlows (fuel + 1) rate = some (rate * 100)) ∧
    (∀ (cashFlows : List ℚ) (fuel : Nat) (rate : ℚ),
      ¬|npvAt cashFlows rate| < irrPrecision → dnpvAt cashFlows rate = 0 →
      solveIRRGo cashFlows (fuel + 1) rate = none) ∧
    (∀ (cashFlows : List ℚ) (fuel : Nat) (rate : ℚ),
      ¬|npvAt cashFlows rate| < irrPrecision → dnpvAt cashFlows rate ≠ 0 →
      solveIRRGo cashFlows (fuel + 1) rate =
        solveIRRGo cashFlows fuel
          (rate - npvAt cashFlows rate / dnpvAt cashFlows rate)) ∧
    (∀ (cashFlows : List ℚ) (rate : ℚ), solveIRRGo cashFlows 0 rate = none) := by
  refine ⟨rfl, ?_, ?_, ?_, ?_, fun _ _ => rfl⟩
  · intro cashFlows h
    unfold solveIRR
    rw [if_neg (by simpa using h)]
  · intro cashFlows fuel rate h
    simp only [solveIRRGo]
    rw [if_pos h]
  · intro cashFlows fuel rate h1 h2
    simp only [solveIRRGo]
    rw [if_neg h1, if_pos h2]
  · intro cashFlows fuel rate h1 h2
    simp only [solveIRRGo]
    rw [if_neg h1, if_neg h2]

theorem C4_solveIRR_behavior_witness :
    solveIRR [] = some 0 ∧
    solveIRR [(-1 : ℚ), 2] = solveIRRGo [(-1 : ℚ), 2] 100 (1 / 10) ∧
    solveIRRGo [(0 : ℚ)] 100 (1 / 10) = some ((1 / 10) * 100) ∧
    solveIRRGo [(1 : ℚ)] 100 (1 / 10) = none ∧
    solveIRRGo [(-1 : ℚ), 2] 100 (1 / 10) =
      solveIRRGo [(-1 : ℚ), 2] 99
        (1 / 10 - npvAt [(-1 : ℚ), 2] (1 / 10) / dnpvAt [(-1 : ℚ), 2] (1 / 10)) ∧
    solveIRRGo [(5 : ℚ), 7] 0 (1 / 4) = none := by
  refine ⟨C4_solveIRR_behavior.1,
    C4_solveIRR_behavior.2.1 _ (by simp),
    C4_solveIRR_behavior.2.2.1 _ 99 _ ?_,
    C4_solveIRR_behavior.2.2.2.1 _ 99 _ ?_ ?_,
    C4_solveIRR_behavior.2.2.2.2.1 _ 99 _ ?_ ?_,
    C4_solveIRR_behavior.2.2.2.2.2 _ _⟩
  · have h : npvAt [(0 : ℚ)] (1 / 10) = 0 := by norm_num [npvAt, npvFrom]
    rw [h, abs_zero]
    norm_num [irrPrecision]
  · have h : npvAt [(1 : ℚ)] (1 / 10) = 1 := by norm_num [npvAt, npvFrom]
    rw [h, abs_one]
    norm_num [irrPrecision]
  · norm_num [dnpvAt, dnpvFrom]
  · have h : npvAt [(-1 : ℚ), 2] (1 / 10) = 9 / 11 := by norm_num [npvAt, npvFrom]
    rw [h, abs_of_pos (by norm_num : (0 : ℚ) < 9 / 11)]
    norm_num [irrPrecision]
  · have h : dnpvAt [(-1 : ℚ), 2] (1 / 10) = -200 / 121 := by
      norm_num [dnpvAt, dnpvFrom]
    rw [h]
    norm_num

/-! ## C10 -/

theorem buildYear_capex (inputs : AppraisalInputs) (v : ℚ) (i : Nat) (st : YearState) :
    (buildYear inputs v i st).1.capitalExpenditures =
      ((inputs.capitalExpenditures.filter
        (fun ce => ce.year = (buildYear inputs v i st).1.year)).map
        (fun ce => capexAmount ce (buildYear inputs v i st).1.potentialGrossRevenue
          (buildYear inputs v i st).1.effectiveGrossIncome inputs.rentableSF)).sum := rfl

/-- C10: for a capital item scheduled in a record's projection year, the
amount added to that year's capital outflow resolves `percentPGI`
(resp. `percentEGI`) as that year's potential gross revenue (resp.
effective gross income) times the raw stored amount, with no division by
100; `perSF` multiplies by the rentable area; any other (or blank) amount
type is the raw fixed amount; and items scheduled in other years contribute
nothing. -/
theorem C10_capex_resolution (inputs : AppraisalInputs) (res : DCFResults)
    (hres : buildFullDCFCashFlows inputs = some res) :
    ∀ cf ∈ res.projectedCashFlowsDCF,
      cf.capitalExpenditures =
        ((inputs.capitalExpenditures.filter (fun ce => ce.year = cf.year)).map
          (fun ce =>
            match ce.amountType with
            | CapexAmountType.percentPGI => cf.potentialGrossRevenue * ce.amount
            | CapexAmountType.percentEGI => cf.effectiveGrossIncome * ce.amount
            | CapexAmountType.perSF => inputs.rentableSF * ce.amount
            | _ => ce.amount)).sum := by
  intro cf hcf
  rw [records_of_buildFull hres] at hcf
  rcases mem_applyPV hcf with ⟨cf1, h1, rfl⟩
  rcases mem_dcfRecordsCore h1 with ⟨cf0, ⟨i, st, rfl⟩, hcase⟩
  rcases hcase with rfl | rfl
  · exact buildYear_capex _ _ _ _
  · exact buildYear_capex _ _ _ _

def c10Res : DCFResults := (buildFullDCFCashFlows capexInputs).getD emptyResults

def c10CF : AnnualCashFlowDCF := c10Res.projectedCashFlowsDCF.getD 0 zeroCF

theorem C10_capex_resolution_witness :
    c10CF.capitalExpenditures =
      ((capexInputs.capitalExpenditures.filter (fun ce => ce.year = c10CF.year)).map
        (fun ce =>
          match ce.amountType with
          | CapexAmountType.percentPGI => c10CF.potentialGrossRevenue * ce.amount
          | CapexAmountType.percentEGI => c10CF.effectiveGrossIncome * ce.amount
          | CapexAmountType.perSF => capexInputs.rentableSF * ce.amount
          | _ => ce.amount)).sum :=
  C10_capex_resolution capexInputs c10Res rfl c10CF (by
    rw [show c10Res.projectedCashFlowsDCF = [c10CF] from rfl]
    exact List.mem_singleton_self c10CF)

/-! ## Calendar lemmas for C3 -/

theorem setFullYear_y (dt : SimpleDate) (y : Int) : (setFullYear dt y).y = y := by
  unfold setFullYear
  split <;> rfl

/-- For a structurally valid date, `setFullYear` either keeps month and day,
or (the Feb-29 style overflow) strictly increases the month. -/
theorem setFullYear_m_d (dt : SimpleDate) (y : Int) (hv : validDate dt) :
    ((setFullYear dt y).m = dt.m ∧ (setFullYear dt y).d = dt.d) ∨
      dt.m < (setFullYear dt y).m := by
  rcases hv with ⟨hm11, _hd1, hd31, hfeb⟩
  unfold setFullYear
  split
  · exact Or.inl ⟨rfl, rfl⟩
  · next hover =>
    have hlt : daysInMonth y dt.m < dt.d := by omega
    have hne : dt.m ≠ 11 := by
      intro h11
      rw [h11] at hlt
      have h31 : daysInMonth y 11 = 31 := rfl
      omega
    have h12 : dt.m + 1 < 12 := by omega
    right
    show dt.m < (dt.m + 1) % 12
    rw [Nat.mod_eq_of_lt h12]
    omega

theorem analysisYearStart_no_decrement (eff : SimpleDate) (i : Nat) (hv : validDate eff) :
    ¬((analysisYearStart eff i).m < eff.m ∨
      ((analysisYearStart eff i).m = eff.m ∧ (analysisYearStart eff i).d < eff.d)) := by
  unfold analysisYearStart
  rcases setFullYear_m_d eff (eff.y + i) hv with ⟨hm, hd⟩ | hm
  · intro h
    rcases h with h | ⟨_, h⟩ <;> omega
  · intro h
    rcases h with h | ⟨heq, _⟩ <;> omega

theorem projectSingle_getD (lease : RentRollEntry) (inputs : AppraisalInputs) (i : Nat)
    (h : i < inputs.projectionYears.toNat) :
    (projectSingleLeaseCashFlows lease inputs).getD i zeroDetail =
      projectLeaseYear lease inputs.effectiveDate inputs.globalMarketRentGrowthPercent i := by
  unfold projectSingleLeaseCashFlows
  rw [List.getD_eq_getElem?_getD, List.getElem?_map, List.getElem?_range h,
    Option.map_some', Option.getD_some]

/-- A real calendar date: month in range and day within that month's
length for that year (what the upstream `YYYY-MM-DD` parsing guarantees). -/
def realDate (dt : SimpleDate) : Prop :=
  dt.m ≤ 11 ∧ 1 ≤ dt.d ∧ dt.d ≤ daysInMonth dt.y dt.m

instance (dt : SimpleDate) : Decidable (realDate dt) := by
  unfold realDate; infer_instance

theorem daysInMonth_le_31 (y : Int) (m : Nat) : daysInMonth y m ≤ 31 := by
  unfold daysInMonth
  split
  · split <;> omega
  · split <;> omega

theorem daysInMonth_feb (y : Int) :
    daysInMonth y 1 = if isLeap y then 29 else 28 := by
  unfold daysInMonth
  rw [if_pos rfl]

theorem daysInMonth_ne_feb (y y' : Int) (m : Nat) (hm : m ≠ 1) :
    daysInMonth y m = daysInMonth y' m := by
  unfold daysInMonth
  rw [if_neg hm, if_neg hm]

theorem realDate_valid {dt : SimpleDate} (h : realDate dt) : validDate dt := by
  obtain ⟨h1, h2, h3⟩ := h
  refine ⟨h1, h2, le_trans h3 (daysInMonth_le_31 _ _), ?_⟩
  intro hm
  rw [hm, daysInMonth_feb] at h3
  split at h3 <;> omega

/-- `setFullYear` on a real date: either the month and day carry over
unchanged, or the input is a Feb 29 of a leap year and the target a
non-leap year, and the result normalises to Mar 1 (exactly as JS does). -/
theorem setFullYear_real_cases (S : SimpleDate) (y : Int) (hS : realDate S) :
    (S.d ≤ daysInMonth y S.m ∧ setFullYear S y = ⟨y, S.m, S.d⟩) ∨
      (S.m = 1 ∧ S.d = 29 ∧ isLeap S.y = true ∧ isLeap y = false ∧
        setFullYear S y = ⟨y, 2, 1⟩) := by
  obtain ⟨hm11, hd1, hdim⟩ := hS
  unfold setFullYear
  split
  · next h => exact Or.inl ⟨h, rfl⟩
  · next h =>
    have hlt : daysInMonth y S.m < S.d := by omega
    have hm1 : S.m = 1 := by
      by_contra hm
      rw [daysInMonth_ne_feb y S.y S.m hm] at hlt
      omega
    rw [hm1] at hlt hdim
    have hyor : daysInMonth y 1 = 28 ∨ daysInMonth y 1 = 29 := by
      rw [daysInMonth_feb]
      split
      · exact Or.inr rfl
      · exact Or.inl rfl
    have hSyor : daysInMonth S.y 1 = 28 ∨ daysInMonth S.y 1 = 29 := by
      rw [daysInMonth_feb]
      split
      · exact Or.inr rfl
      · exact Or.inl rfl
    have hd29 : S.d = 29 := by omega
    have h28 : daysInMonth y 1 = 28 := by omega
    have hSy29 : daysInMonth S.y 1 = 29 := by omega
    have hyl : isLeap y = false := by
      cases hb : isLeap y
      · rfl
      · rw [daysInMonth_feb, hb] at h28
        simp at h28
    have hSl : isLeap S.y = true := by
      cases hb : isLeap S.y
      · rw [daysInMonth_feb, hb] at hSy29
        simp at hSy29
      · rfl
    refine Or.inr ⟨hm1, hd29, hSl, hyl, ?_⟩
    rw [hm1, hd29, h28]

/-- The `n`-th anniversary of the lease start date `S`: the same
month/day `n` years later, with the JS `setFullYear` normalisation. -/
def nthAnniversary (S : SimpleDate) (n : Nat) : SimpleDate :=
  setFullYear S (S.y + n)

/-- The number of full lease anniversaries of `S` elapsed on date `D`:
the count of `n ≥ 1` whose `n`-th anniversary falls on or before `D`
(anniversaries beyond `D.y − S.y` years lie past `D`, so the scanned
range is exhaustive). -/
def anniversariesElapsed (S D : SimpleDate) : Nat :=
  (List.range' 1 ((D.y - S.y).toNat + 1)).countP
    (fun n => decide (dateLe (nthAnniversary S n) D))

theorem nthAnniversary_le_iff (S D : SimpleDate) (hS : realDate S)
    (hD : realDate D) (n : Nat) :
    dateLe (nthAnniversary S n) D ↔
      (S.y + (n : Int) < D.y ∨ (S.y + (n : Int) = D.y ∧
        ¬(D.m < S.m ∨ (D.m = S.m ∧ D.d < S.d)))) := by
  unfold nthAnniversary
  rcases setFullYear_real_cases S (S.y + n) hS with ⟨_, heq⟩ |
    ⟨hm1, hd29, _, hyl, heq⟩
  · rw [heq]
    simp only [dateLe]
    omega
  · rw [heq]
    simp only [dateLe]
    rw [hm1, hd29]
    have hd1 := hD.2.1
    have hfeb : S.y + (n : Int) = D.y → D.m = 1 → D.d ≤ 28 := by
      intro hy hm
      have h3 := hD.2.2
      rw [hm, daysInMonth_feb, ← hy, hyl] at h3
      simpa using h3
    omega

theorem countP_le_range' (M : Nat) :
    ∀ B : Nat, (List.range' 1 B).countP (fun n => decide (n ≤ M)) = min M B := by
  intro B
  induction B with
  | zero => simp
  | succ B ih =>
    rw [List.range'_concat, List.countP_append, ih]
    simp only [List.countP_cons, List.countP_nil, decide_eq_true_eq]
    split <;> omega

theorem anniversariesElapsed_eq_of (S D : SimpleDate) (M : Nat)
    (hM : M ≤ (D.y - S.y).toNat + 1)
    (hbridge : ∀ n : Nat, 1 ≤ n → (dateLe (nthAnniversary S n) D ↔ n ≤ M)) :
    anniversariesElapsed S D = M := by
  unfold anniversariesElapsed
  have hcongr : ∀ n ∈ List.range' 1 ((D.y - S.y).toNat + 1),
      (decide (dateLe (nthAnniversary S n) D) = true ↔ decide (n ≤ M) = true) := by
    intro n hn
    rw [List.mem_range'] at hn
    obtain ⟨i, _, rfl⟩ := hn
    simp only [decide_eq_true_eq]
    exact hbridge _ (by omega)
  rw [List.countP_congr hcongr, countP_le_range']
  omega

/-- For real calendar dates, the elapsed-anniversary count equals the
source's computation at dcf.ts:98-105: the year difference, decremented
when the analysis year starts before the lease start's month/day,
clamped at zero. -/
theorem anniversariesElapsed_eq (S D : SimpleDate) (hS : realDate S)
    (hD : realDate D) :
    anniversariesElapsed S D =
      (max 0 (if D.m < S.m ∨ (D.m = S.m ∧ D.d < S.d)
        then D.y - S.y - 1 else D.y - S.y)).toNat := by
  refine anniversariesElapsed_eq_of S D _ ?_ ?_
  · by_cases hdec : D.m < S.m ∨ (D.m = S.m ∧ D.d < S.d)
    · rw [if_pos hdec]
      omega
    · rw [if_neg hdec]
      omega
  · intro n hn
    rw [nthAnniversary_le_iff S D hS hD]
    by_cases hdec : D.m < S.m ∨ (D.m = S.m ∧ D.d < S.d)
    · rw [if_pos hdec]
      omega
    · rw [if_neg hdec]
      omega

theorem realDate_mar1 (y : Int) : realDate ⟨y, 2, 1⟩ := by
  unfold realDate
  refine ⟨?_, ?_, ?_⟩
  · show (2 : Nat) ≤ 11
    omega
  · show (1 : Nat) ≤ 1
    omega
  · show (1 : Nat) ≤ daysInMonth y 2
    rw [show daysInMonth y 2 = 31 from rfl]
    omega

theorem analysisYearStart_real (eff : SimpleDate) (i : Nat) (h : realDate eff) :
    realDate (analysisYearStart eff i) := by
  unfold analysisYearStart
  rcases setFullYear_real_cases eff (eff.y + i) h with ⟨hle, heq⟩ |
    ⟨_, _, _, _, heq⟩
  · rw [heq]
    exact ⟨h.1, h.2.1, hle⟩
  · rw [heq]
    exact realDate_mar1 _

/-! ## C3 -/

/-- C3 (amended): for a lease with FixedPercent(r) escalation and a
strictly positive rate `r`, the scheduled rent of every projection year
`k` inside the lease term is `baseRent * (1 + r/100)^y`, where `y` is the
number of full lease anniversaries elapsed at the start of analysis year
`k` — the source's year-difference computation with the month/day
decrement (dcf.ts:98-112); when the lease term starts exactly at the
property effective date, this exponent is `k - 1`, giving the claimed
formula.  (For `r ≤ 0` the source applies no escalation at all — see the
counterexample.) -/
theorem C3_fixed_escalation (lease : RentRollEntry) (inputs : AppraisalInputs) (k : Nat)
    (hk : 1 ≤ k) (hkN : k ≤ inputs.projectionYears.toNat)
    (hv : realDate inputs.effectiveDate)
    (hvS : realDate lease.leaseStartDate)
    (htype : lease.escalationType = EscalationType.fixedPercent)
    (hesc : 0 < lease.escalationPercent)
    (hact1 : dateLe lease.leaseStartDate (analysisYearEnd inputs.effectiveDate (k - 1)))
    (hact2 : dateLe (analysisYearStart inputs.effectiveDate (k - 1)) lease.leaseEndDate) :
    ((projectSingleLeaseCashFlows lease inputs).getD (k - 1) zeroDetail).scheduledRent =
      lease.squareFeet * lease.currentRentPerSF *
        (1 + lease.escalationPercent / 100) ^
          anniversariesElapsed lease.leaseStartDate
            (analysisYearStart inputs.effectiveDate (k - 1)) ∧
    (lease.leaseStartDate = inputs.effectiveDate →
      ((projectSingleLeaseCashFlows lease inputs).getD (k - 1) zeroDetail).scheduledRent =
        lease.squareFeet * lease.currentRentPerSF *
          (1 + lease.escalationPercent / 100) ^ (k - 1)) := by
  have hgen : ((projectSingleLeaseCashFlows lease inputs).getD (k - 1)
      zeroDetail).scheduledRent =
      lease.squareFeet * lease.currentRentPerSF *
        (1 + lease.escalationPercent / 100) ^
          anniversariesElapsed lease.leaseStartDate
            (analysisYearStart inputs.effectiveDate (k - 1)) := by
    rw [projectSingle_getD lease inputs (k - 1) (by omega)]
    simp only [projectLeaseYear]
    rw [if_pos ⟨hact1, hact2⟩]
    rw [if_pos ⟨htype, hesc⟩]
    rw [anniversariesElapsed_eq lease.leaseStartDate
      (analysisYearStart inputs.effectiveDate (k - 1)) hvS
      (analysisYearStart_real inputs.effectiveDate (k - 1) hv)]
  refine ⟨hgen, fun hstart => ?_⟩
  have hE : anniversariesElapsed inputs.effectiveDate
      (analysisYearStart inputs.effectiveDate (k - 1)) = k - 1 := by
    rw [anniversariesElapsed_eq inputs.effectiveDate
      (analysisYearStart inputs.effectiveDate (k - 1)) hv
      (analysisYearStart_real inputs.effectiveDate (k - 1) hv),
      if_neg (analysisYearStart_no_decrement inputs.effectiveDate (k - 1)
        (realDate_valid hv))]
    rw [analysisYearStart, setFullYear_y]
    omega
  rw [hgen, hstart, hE]

/-- A lease whose term starts mid-year (June 15), away from the property
effective date, to exercise the general anniversary count. -/
def offsetLease : RentRollEntry :=
  { scenarioLease with leaseStartDate := ⟨2024, 5, 15⟩ }

theorem C3_fixed_escalation_witness :
    (((projectSingleLeaseCashFlows offsetLease scenarioInputs).getD 4
          zeroDetail).scheduledRent =
        offsetLease.squareFeet * offsetLease.currentRentPerSF *
          (1 + offsetLease.escalationPercent / 100) ^
            anniversariesElapsed offsetLease.leaseStartDate
              (analysisYearStart scenarioInputs.effectiveDate 4) ∧
      anniversariesElapsed offsetLease.leaseStartDate
        (analysisYearStart scenarioInputs.effectiveDate 4) = 3) ∧
    ((projectSingleLeaseCashFlows scenarioLease scenarioInputs).getD 4
        zeroDetail).scheduledRent =
      scenarioLease.squareFeet * scenarioLease.currentRentPerSF *
        (1 + scenarioLease.escalationPercent / 100) ^ 4 := by
  refine ⟨⟨?_, by decide⟩, ?_⟩
  · exact (C3_fixed_escalation offsetLease scenarioInputs 5 (by decide) (by decide)
      (by decide) (by decide) rfl
      (by norm_num [offsetLease, scenarioLease, baseLease])
      (by decide) (by decide)).1
  · exact (C3_fixed_escalation scenarioLease scenarioInputs 5 (by decide) (by decide)
      (by decide) (by decide) rfl
      (by norm_num [scenarioLease, baseLease])
      (by decide) (by decide)).2 rfl

/-- C3 (counterexample): with a −5% fixed escalation rate the source leaves
the rent at base (15000) in projection year 2, while the claimed formula
`baseRent * (1 + r/100)^(k-1)` gives 14250. -/
theorem C3_fixed_escalation_counterexample :
    ((projectSingleLeaseCashFlows negEscLease negEscInputs).getD 1 zeroDetail).scheduledRent = 15000 ∧
    negEscLease.escalationType = EscalationType.fixedPercent ∧
    negEscLease.escalationPercent = -5 ∧
    (15000 : ℚ) ≠ negEscLease.squareFeet * negEscLease.currentRentPerSF *
      (1 + negEscLease.escalationPercent / 100) ^ (2 - 1) := by
  refine ⟨?_, rfl, by norm_num [negEscLease, scenarioLease, baseLease], ?_⟩
  · rw [projectSingle_getD negEscLease negEscInputs 1 (by decide)]
    simp only [projectLeaseYear]
    rw [if_pos ⟨by decide, by decide⟩]
    rw [if_neg (by decide)]
    rw [if_neg (fun hc => absurd hc.2 (by norm_num [negEscLease, scenarioLease, baseLease]))]
    simp +decide [negEscLease, scenarioLease, baseLease]
    norm_num
  · have h : negEscLease.squareFeet * negEscLease.currentRentPerSF *
        (1 + negEscLease.escalationPercent / 100) ^ (2 - 1) = 14250 := by
      norm_num [negEscLease, scenarioLease, baseLease]
    rw [h]
    norm_num

/-! ## C7 -/

/-- The claim's admin-fee treatment: when an admin-fee percentage is
configured (and positive), it scales the reimbursement by `1 + fee/100`. -/
def adminFeeFactor (l : RentRollEntry) : ℚ :=
  match l.reimbursementDetails with
  | some det =>
    match det.adminFeeOnOpExPercent with
    | some fee => if 0 < fee then 1 + fee / 100 else 1
    | none => 1
  | none => 1

/-- The claim's per-lease reimbursement formula, written from the spec's
§4.4 wording: NNN = prorated recoverable with the admin fee on top;
ModifiedGross with a positive expense stop = `max(0, prorated − stop·area)`
with the admin fee on top; ModifiedGross without a stop, and Gross, = 0;
a non-positive total rentable area gives a zero pro-rata share. -/
def reimbursementSpec (l : RentRollEntry) (recoverableOpexTotal totalRentableSF : ℚ) : ℚ :=
  let share := if 0 < l.squareFeet ∧ 0 < totalRentableSF
    then l.squareFeet / totalRentableSF else 0
  match l.reimbursementType with
  | ReimbursementType.nnn => recoverableOpexTotal * share * adminFeeFactor l
  | ReimbursementType.modifiedGross =>
    match l.reimbursementDetails with
    | some det =>
      match det.expenseStopAmountPerSF with
      | some stop =>
        if 0 < stop then
          max 0 (recoverableOpexTotal * share - stop * l.squareFeet) * adminFeeFactor l
        else 0
      | none => 0
    | none => 0
  | _ => 0

theorem buildYear_reimb (inputs : AppraisalInputs) (v : ℚ) (i : Nat) (st : YearState) :
    (buildYear inputs v i st).1.tenantReimbursementsNNN =
      (inputs.rentRoll.map (fun l =>
        leaseReimbursement l
          (calculateAnnualOperatingExpenses inputs.operatingExpensesBuckets i
            inputs.globalExpenseInflationPercent 0).2
          inputs.rentableSF)).sum := rfl

/-- C7 (amended): the per-lease reimbursement follows the claimed NNN /
ModifiedGross / Gross formulas (admin fee applied multiplicatively on top,
zero pro-rata share on zero rentable area), but the year's aggregate
reimbursement is the sum over every lease of the rent roll — the source
performs no activity check, so expired or not-yet-started leases are
reimbursed too. -/
theorem C7_reimbursement_rules :
    (∀ (l : RentRollEntry) (rec sf : ℚ),
      leaseReimbursement l rec sf = reimbursementSpec l rec sf) ∧
    (∀ (inputs : AppraisalInputs) (res : DCFResults),
      buildFullDCFCashFlows inputs = some res →
      ∀ cf ∈ res.projectedCashFlowsDCF,
        cf.tenantReimbursementsNNN =
          (inputs.rentRoll.map (fun l =>
            leaseReimbursement l
              (calculateAnnualOperatingExpenses inputs.operatingExpensesBuckets
                ((cf.year - 1).toNat) inputs.globalExpenseInflationPercent 0).2
              inputs.rentableSF)).sum) := by
  refine ⟨?_, ?_⟩
  · intro l rec sf
    obtain ⟨lsf, lrent, lsd, led, lesct, lescp, lc1, lc2, lss, lrt, lrd, lrp, lrb, ldm,
      lrmr, lrti, lrlc⟩ := l
    unfold leaseReimbursement reimbursementSpec adminFeeFactor
    cases lrt
    · rfl
    · rcases lrd with _ | ⟨stopOpt, feeOpt⟩
      · simp only []
        ring
      · rcases feeOpt with _ | fee
        · simp only []
          ring
        · simp only []
          by_cases hf : 0 < fee
          · rw [if_pos hf, if_pos hf]
            ring
          · rw [if_neg hf, if_neg hf]
            ring
    · rcases lrd with _ | ⟨stopOpt, feeOpt⟩
      · rfl
      · rcases stopOpt with _ | stop
        · rfl
        · simp only []
          by_cases hs : 0 < stop
          · rw [if_pos hs, if_pos hs]
            rcases feeOpt with _ | fee
            · simp only []
              ring
            · simp only []
              by_cases hf : 0 < fee
              · rw [if_pos hf, if_pos hf]
                ring
              · rw [if_neg hf, if_neg hf]
                ring
          · rw [if_neg hs, if_neg hs]
    · rfl
  · intro inputs res hres cf hcf
    rw [records_of_buildFull hres] at hcf
    rcases mem_applyPV hcf with ⟨cf1, h1, rfl⟩
    rcases mem_dcfRecordsCore h1 with ⟨cf0, ⟨i, st, rfl⟩, hcase⟩
    rcases hcase with rfl | rfl
    · show (buildYear inputs (initialVacantSF inputs) i st).1.tenantReimbursementsNNN = _
      rw [buildYear_reimb]
      have hyear : (((buildYear inputs (initialVacantSF inputs) i st).1.year - 1).toNat) = i := by
        rw [buildYear_year]
        omega
      rw [show ((pvUpdate inputs.discountRatePercent
          (buildYear inputs (initialVacantSF inputs) i st).1).year) =
          (buildYear inputs (initialVacantSF inputs) i st).1.year from rfl, hyear]
    · show (buildYear inputs (initialVacantSF inputs) i st).1.tenantReimbursementsNNN = _
      rw [buildYear_reimb]
      have hyear : (((buildYear inputs (initialVacantSF inputs) i st).1.year - 1).toNat) = i := by
        rw [buildYear_year]
        omega
      rw [show ((pvUpdate inputs.discountRatePercent
          (terminalAdjust inputs (buildYear inputs (initialVacantSF inputs) i st).1)).year) =
          (buildYear inputs (initialVacantSF inputs) i st).1.year from rfl, hyear]

def c7Res : DCFResults := (buildFullDCFCashFlows reimbInputs).getD emptyResults

/-- The second projection year's record for `reimbInputs` — a year in which
the only (NNN) lease is already expired. -/
def c7CF : AnnualCashFlowDCF := c7Res.projectedCashFlowsDCF.getD 1 zeroCF

theorem C7_reimbursement_rules_witness :
    leaseReimbursement (reimbInputs.rentRoll.getD 0 baseLease) 1000 100 =
      reimbursementSpec (reimbInputs.rentRoll.getD 0 baseLease) 1000 100 ∧
    c7CF.tenantReimbursementsNNN =
      (reimbInputs.rentRoll.map (fun l =>
        leaseReimbursement l
          (calculateAnnualOperatingExpenses reimbInputs.operatingExpensesBuckets
            ((c7CF.year - 1).toNat) reimbInputs.globalExpenseInflationPercent 0).2
          reimbInputs.rentableSF)).sum :=
  ⟨C7_reimbursement_rules.1 _ 1000 100,
   C7_reimbursement_rules.2 reimbInputs c7Res rfl c7CF (by
     rw [show c7Res.projectedCashFlowsDCF =
       [c7Res.projectedCashFlowsDCF.getD 0 zeroCF, c7CF] from rfl]
     exact List.mem_cons_of_mem _ (List.mem_singleton_self _))⟩

/-- C7 (counterexample): in `reimbInputs` the single NNN lease is expired
before the second projection year begins (so it is not active that year),
yet the engine still credits its full pro-rata reimbursement of 500 in that
year — the claim's "leases not active in the year contribute nothing" (so
the aggregate would be 0) fails. -/
theorem C7_reimbursement_rules_counterexample :
    dateLt (reimbInputs.rentRoll.getD 0 baseLease).leaseEndDate
      (analysisYearStart reimbInputs.effectiveDate 1) ∧
    c7CF.tenantReimbursementsNNN = 500 ∧ (500 : ℚ) ≠ 0 := by
  refine ⟨by decide, ?_, by norm_num⟩
  show (buildYear reimbInputs (initialVacantSF reimbInputs) 1
    ((buildYear reimbInputs (initialVacantSF reimbInputs) 0
      initialYearState).2)).1.tenantReimbursementsNNN = 500
  rw [buildYear_reimb]
  norm_num [reimbInputs, baseInputs, expiringLease, baseLease, zeroOpexBuckets,
    zeroExpenseItem, leaseReimbursement, calculateAnnualOperatingExpenses,
    inflatedBucketAmount, inflFactor, bucketIsRecoverable, mgmtFeePercentInflated]

/-! ## C6 -/

/-- C6 (amended): the vacancy pool that the market-leasing step is run
against is `max(0, (initial building vacancy if first year, else 0) +
cumulative non-renewal vacancy from prior years − area already re-leased at
market)` — the initial building vacancy is injected in the first projection
year only, not re-added in later years; the year's speculative market rent
and the updated leased-area total are produced by running the market-leasing
step against exactly this pool; and, when market-leasing assumptions are
configured and the pool is positive, the step leases the whole pool at the
inflated market rent with the downtime factor, TI, and LC as specified. -/
theorem C6_vacancy_pool :
    (∀ (inputs : AppraisalInputs) (i : Nat),
      poolExpr (initialVacantSF inputs) i (yearStateAt inputs i) =
        max 0 ((if i = 0 then initialVacantSF inputs else 0)
          + (yearStateAt inputs i).cumulativeVacantSFFromPriorYearNonRenewals
          - (yearStateAt inputs i).sfLeasedInPriorYearsAndStillActive)) ∧
    (∀ (inputs : AppraisalInputs) (i : Nat) (st : YearState),
      (buildYear inputs (initialVacantSF inputs) i st).1.potentialMarketRentFromVacancy =
        (marketLeasingStep inputs i (poolExpr (initialVacantSF inputs) i st)
          st.sfLeasedInPriorYearsAndStillActive).1 ∧
      (buildYear inputs (initialVacantSF inputs) i st).2.sfLeasedInPriorYearsAndStillActive =
        (marketLeasingStep inputs i (poolExpr (initialVacantSF inputs) i st)
          st.sfLeasedInPriorYearsAndStillActive).2.2.2) ∧
    (∀ (inputs : AppraisalInputs) (i : Nat) (pool sfLeased : ℚ)
      (mla : MarketLeasingAssumptions),
      inputs.marketLeasingAssumptions = some mla → 0 < pool →
      marketLeasingStep inputs i pool sfLeased =
        (pool * (mla.marketRentNewLeasePerSF *
            (1 + inputs.globalMarketRentGrowthPercent / 100) ^ i) *
            (max 0 (12 - mla.timeToLeaseVacantSFMonths) / 12),
         pool * mla.newLeaseTiPerSF,
         pool * (mla.marketRentNewLeasePerSF *
            (1 + inputs.globalMarketRentGrowthPercent / 100) ^ i) *
            (mla.newLeaseLcPercent / 100),
         sfLeased + pool)) := by
  refine ⟨fun inputs i => rfl, fun inputs i st => ⟨rfl, rfl⟩, ?_⟩
  intro inputs i pool sfLeased mla hm hpool
  unfold marketLeasingStep
  rw [hm]
  simp only []
  rw [if_pos hpool]

theorem C6_vacancy_pool_witness :
    poolExpr (initialVacantSF poolInputs) 2 (yearStateAt poolInputs 2) =
      max 0 ((if 2 = 0 then initialVacantSF poolInputs else 0)
        + (yearStateAt poolInputs 2).cumulativeVacantSFFromPriorYearNonRenewals
        - (yearStateAt poolInputs 2).sfLeasedInPriorYearsAndStillActive) ∧
    marketLeasingStep poolInputs 0 100 0 =
      (100 * (1 * (1 + poolInputs.globalMarketRentGrowthPercent / 100) ^ (0 : Nat)) *
          (max 0 (12 - 0) / 12),
       100 * 0,
       100 * (1 * (1 + poolInputs.globalMarketRentGrowthPercent / 100) ^ (0 : Nat)) * (0 / 100),
       0 + 100) :=
  ⟨C6_vacancy_pool.1 poolInputs 2,
   C6_vacancy_pool.2.2 poolInputs 0 100 0
     { marketRentNewLeasePerSF := 1, timeToLeaseVacantSFMonths := 0,
       newLeaseTiPerSF := 0, newLeaseLcPercent := 0 }
     rfl (by norm_num)⟩

/-- C6 (counterexample): for `poolInputs` (initial vacancy 100, a 50 sq-ft
non-renewal that vacates in the second year), the pool actually used in the
third projection year (index 2) is 0, whereas the claim's formula
"initial building vacancy + cumulative non-renewal vacancy − area already
re-leased" gives 100 + 50 − 100 = 50. -/
theorem C6_vacancy_pool_counterexample :
    poolExpr (initialVacantSF poolInputs) 2 (yearStateAt poolInputs 2) = 0 ∧
    initialVacantSF poolInputs
      + (yearStateAt poolInputs 2).cumulativeVacantSFFromPriorYearNonRenewals
      - (yearStateAt poolInputs 2).sfLeasedInPriorYearsAndStillActive = 50 ∧
    (0 : ℚ) ≠ 50 := by
  have hst : yearStateAt poolInputs 2 =
      { cumulativeVacantSFFromPriorYearNonRenewals := 50,
        sfLeasedInPriorYearsAndStillActive := 100 } := by
    norm_num +decide [yearStateAt, buildYear, marketLeasingStep, poolExpr, initialVacantSF,
      projectSingleLeaseCashFlows, projectLeaseYear, analysisYearStart, analysisYearEnd,
      setFullYear, subOneDay, daysInMonth, isLeap, dateLe, dateLt, initialYearState,
      poolInputs, baseInputs, expiringLease, baseLease, jan1_2024, zeroDetail, zeroDetailAt,
      zeroOpexBuckets, zeroExpenseItem, List.range_succ]
  have hinit : initialVacantSF poolInputs = 100 := by
    norm_num [initialVacantSF, poolInputs, baseInputs, expiringLease, baseLease]
  refine ⟨?_, ?_, by norm_num⟩
  · rw [hst]
    norm_num [poolExpr, hinit]
  · rw [hst]
    norm_num [hinit]

/-! ## C8 -/

theorem pvUpdate_pvncf (d : ℚ) (cf : AnnualCashFlowDCF) :
    (pvUpdate d cf).presentValueOfNetCashFlow =
      cf.netCashFlowWithTerminal * (1 / (1 + d / 100) ^ cf.year.toNat) := rfl

theorem dcfRecordsCore_year_pos (inputs : AppraisalInputs) :
    ∀ cf ∈ dcfRecordsCore inputs, 1 ≤ cf.year := by
  intro cf hcf
  rcases mem_dcfRecordsCore hcf with ⟨cf0, ⟨i, st, rfl⟩, hcase⟩
  rcases hcase with rfl | rfl
  · rw [buildYear_year]
    omega
  · show 1 ≤ (buildYear inputs (initialVacantSF inputs) i st).1.year
    rw [buildYear_year]
    omega

theorem pv_term_le {p1 p2 : ℚ} (hp1 : 0 < p1) (h12 : p1 ≤ p2)
    {a : ℚ} (ha : 0 ≤ a) (t : Nat) :
    a * (1 / p2 ^ t) ≤ a * (1 / p1 ^ t) := by
  have hpow : p1 ^ t ≤ p2 ^ t := pow_le_pow_left₀ hp1.le h12 t
  have hpos : 0 < p1 ^ t := pow_pos hp1 t
  exact mul_le_mul_of_nonneg_left (one_div_le_one_div_of_le hpos hpow) ha

theorem pv_term_lt {p1 p2 : ℚ} (hp1 : 0 < p1) (h12 : p1 < p2)
    {a : ℚ} (ha : 0 < a) {t : Nat} (ht : t ≠ 0) :
    a * (1 / p2 ^ t) < a * (1 / p1 ^ t) := by
  have hpow : p1 ^ t < p2 ^ t := pow_lt_pow_left₀ h12 hp1.le ht
  have hpos : 0 < p1 ^ t := pow_pos hp1 t
  exact mul_lt_mul_of_pos_left (one_div_lt_one_div_of_lt hpos hpow) ha

theorem sumPV_anti (p1 p2 : ℚ) (hp1 : 0 < p1) (h12 : p1 ≤ p2) :
    ∀ l : List AnnualCashFlowDCF,
      (∀ cf ∈ l, 0 ≤ cf.netCashFlowWithTerminal) →
      (l.map (fun cf => cf.netCashFlowWithTerminal * (1 / p2 ^ cf.year.toNat))).sum ≤
        (l.map (fun cf => cf.netCashFlowWithTerminal * (1 / p1 ^ cf.year.toNat))).sum := by
  intro l
  induction l with
  | nil => intro _; simp
  | cons x xs ih =>
    intro hnn
    simp only [List.map_cons, List.sum_cons]
    exact add_le_add
      (pv_term_le hp1 h12 (hnn x (List.mem_cons_self _ _)) _)
      (ih (fun cf hcf => hnn cf (List.mem_cons_of_mem _ hcf)))

theorem sumPV_strict_anti (p1 p2 : ℚ) (hp1 : 0 < p1) (h12 : p1 < p2) :
    ∀ l : List AnnualCashFlowDCF,
      (∀ cf ∈ l, 1 ≤ cf.year) →
      (∀ cf ∈ l, 0 ≤ cf.netCashFlowWithTerminal) →
      (∃ cf ∈ l, 0 < cf.netCashFlowWithTerminal) →
      (l.map (fun cf => cf.netCashFlowWithTerminal * (1 / p2 ^ cf.year.toNat))).sum <
        (l.map (fun cf => cf.netCashFlowWithTerminal * (1 / p1 ^ cf.year.toNat))).sum := by
  intro l
  induction l with
  | nil =>
    intro _ _ hex
    rcases hex with ⟨cf, hcf, _⟩
    simp at hcf
  | cons x xs ih =>
    intro hy hnn hex
    simp only [List.map_cons, List.sum_cons]
    rcases hex with ⟨cf, hcf, hpos⟩
    rcases List.mem_cons.mp hcf with rfl | hcf'
    · refine add_lt_add_of_lt_of_le ?_ ?_
      · have hyx := hy cf (List.mem_cons_self _ _)
        exact pv_term_lt hp1 h12 hpos (by omega)
      · exact sumPV_anti p1 p2 hp1 h12.le xs
          (fun c hc => hnn c (List.mem_cons_of_mem _ hc))
    · refine add_lt_add_of_le_of_lt ?_ ?_
      · exact pv_term_le hp1 h12.le (hnn x (List.mem_cons_self _ _)) _
      · exact ih (fun c hc => hy c (List.mem_cons_of_mem _ hc))
          (fun c hc => hnn c (List.mem_cons_of_mem _ hc)) ⟨cf, hcf', hpos⟩

/-- C8 (amended): the engine's total present value equals
`Σ netCashFlowWithTerminal_t / (1 + d/100)^t` over the (discount-rate
independent) core records; and strictly increasing the discount rate
strictly decreases it provided both rates exceed −100 and the cash-flow
series is nonnegative with at least one positive year.  (For an input whose
cash flows are all zero the present value is unchanged — see the
counterexample.) -/
theorem C8_discount_monotonicity :
    (∀ (inputs : AppraisalInputs) (res : DCFResults),
      buildFullDCFCashFlows inputs = some res →
      res.dcfValue = dcfValueAtRate inputs inputs.discountRatePercent) ∧
    (∀ (inputs : AppraisalInputs) (d1 d2 : ℚ),
      -100 < d1 → d1 < d2 →
      (∀ cf ∈ dcfRecordsCore inputs, 0 ≤ cf.netCashFlowWithTerminal) →
      (∃ cf ∈ dcfRecordsCore inputs, 0 < cf.netCashFlowWithTerminal) →
      dcfValueAtRate inputs d2 < dcfValueAtRate inputs d1) := by
  constructor
  · intro inputs res hres
    unfold buildFullDCFCashFlows at hres
    split at hres
    · exact absurd hres (by simp)
    · rw [← Option.some.inj hres]
      show (List.map _ (applyPV inputs.discountRatePercent (dcfRecordsCore inputs))).sum = _
      unfold applyPV dcfValueAtRate
      rw [List.map_map]
      congr 1
  · intro inputs d1 d2 hd1 hd12 hnn hex
    have hp1 : 0 < 1 + d1 / 100 := by
      have h := (div_lt_div_iff_of_pos_right (show (0:ℚ) < 100 by norm_num)).mpr hd1
      rw [show (-100 : ℚ) / 100 = -1 by norm_num] at h
      linarith
    have hp12 : 1 + d1 / 100 < 1 + d2 / 100 := by
      have h := (div_lt_div_iff_of_pos_right (show (0:ℚ) < 100 by norm_num)).mpr hd12
      linarith
    exact sumPV_strict_anti _ _ hp1 hp12 (dcfRecordsCore inputs)
      (dcfRecordsCore_year_pos inputs) hnn hex

/-- C8 (counterexample): with an all-zero cash-flow input, raising the
discount rate from 5 to 10 leaves the total present value at 0 — it does
not strictly decrease, refuting the claim for arbitrary valid inputs. -/
theorem C8_discount_monotonicity_counterexample :
    zeroFlowInputsHi = { zeroFlowInputs with discountRatePercent := 10 } ∧
    zeroFlowInputs.discountRatePercent = 5 ∧
    zeroFlowInputs.discountRatePercent < zeroFlowInputsHi.discountRatePercent ∧
    (buildFullDCFCashFlows zeroFlowInputs).map DCFResults.dcfValue = some 0 ∧
    (buildFullDCFCashFlows zeroFlowInputsHi).map DCFResults.dcfValue = some 0 ∧
    ¬((0 : ℚ) < 0) := by
  refine ⟨rfl, rfl, by norm_num [zeroFlowInputs, zeroFlowInputsHi, baseInputs], ?_, ?_, by norm_num⟩
  · norm_num +decide [buildFullDCFCashFlows, applyPV, pvUpdate, dcfRecordsCore,
      terminalAdjust, rawYearRecords, runYears, buildYear, marketLeasingStep, poolExpr,
      initialVacantSF, yearStateAt, initialYearState, projectSingleLeaseCashFlows,
      calculateAnnualOperatingExpenses, inflatedBucketAmount, inflFactor,
      bucketIsRecoverable, mgmtFeePercentInflated, leaseReimbursement, capexAmount,
      terminalOf, finalYearNOIOf, calculateTerminalValue, zeroFlowInputs, baseInputs,
      zeroOpexBuckets, zeroExpenseItem, List.range_succ]
  · norm_num +decide [buildFullDCFCashFlows, applyPV, pvUpdate, dcfRecordsCore,
      terminalAdjust, rawYearRecords, runYears, buildYear, marketLeasingStep, poolExpr,
      initialVacantSF, yearStateAt, initialYearState, projectSingleLeaseCashFlows,
      calculateAnnualOperatingExpenses, inflatedBucketAmount, inflFactor,
      bucketIsRecoverable, mgmtFeePercentInflated, leaseReimbursement, capexAmount,
      terminalOf, finalYearNOIOf, calculateTerminalValue, zeroFlowInputsHi, zeroFlowInputs,
      baseInputs, zeroOpexBuckets, zeroExpenseItem, List.range_succ]

def c8Res : DCFResults := (buildFullDCFCashFlows posFlowInputs).getD emptyResults

def c8CF : AnnualCashFlowDCF := (dcfRecordsCore posFlowInputs).getD 0 zeroCF

theorem C8_discount_monotonicity_witness :
    c8Res.dcfValue = dcfValueAtRate posFlowInputs posFlowInputs.discountRatePercent ∧
    dcfValueAtRate posFlowInputs 10 < dcfValueAtRate posFlowInputs 5 := by
  have hval : c8CF.netCashFlowWithTerminal = 11000 := by
    show (terminalAdjust posFlowInputs
      (buildYear posFlowInputs (initialVacantSF posFlowInputs) 0
        initialYearState).1).netCashFlowWithTerminal = 11000
    norm_num +decide [terminalAdjust, buildYear, marketLeasingStep, poolExpr,
      initialVacantSF, projectSingleLeaseCashFlows, initialYearState,
      calculateAnnualOperatingExpenses, inflatedBucketAmount, inflFactor,
      bucketIsRecoverable, mgmtFeePercentInflated, leaseReimbursement, capexAmount,
      terminalOf, finalYearNOIOf, calculateTerminalValue, rawYearRecords, runYears,
      posFlowInputs, baseInputs, zeroOpexBuckets, zeroExpenseItem, List.range_succ]
  have hlist : dcfRecordsCore posFlowInputs = [c8CF] := rfl
  constructor
  · exact C8_discount_monotonicity.1 posFlowInputs c8Res rfl
  · refine C8_discount_monotonicity.2 posFlowInputs 5 10 (by norm_num) (by norm_num) ?_ ?_
    · intro cf hcf
      rw [hlist] at hcf
      rcases List.mem_singleton.mp hcf with rfl
      rw [hval]
      norm_num
    · refine ⟨c8CF, ?_, ?_⟩
      · rw [hlist]
        exact List.mem_singleton_self _
      · rw [hval]
        norm_num

end DCF
